import Mathlib

/-!
# WinServiceLibrary: service lifecycle host and service manager

A shallow embedding of `src/WinServiceLibrary/BaseService.hpp` and
`src/WinServiceLibrary/ServiceManager.hpp`.

* Member functions become state-passing functions over the object's fields.
* C++ exceptions become the `Except` component of the result; the object's
  fields keep the value they had when the exception was thrown.
* Calls into the Windows service control manager (SCM) are recorded in a trace,
  and their outcomes are taken from a script given as an argument.
* `unsigned long` / `DWORD` is 32 bits wide on Windows; the only arithmetic on
  it in the sources is `checkPoint++`, modelled modulo `2 ^ 32`.
-/

namespace WinServiceLib

/-! ## Windows SDK constants (`winsvc.h`, `winnt.h`, `winerror.h`) -/

abbrev SERVICE_STOPPED : Nat := 1
abbrev SERVICE_START_PENDING : Nat := 2
abbrev SERVICE_STOP_PENDING : Nat := 3
abbrev SERVICE_RUNNING : Nat := 4
abbrev SERVICE_CONTINUE_PENDING : Nat := 5
abbrev SERVICE_PAUSE_PENDING : Nat := 6
abbrev SERVICE_PAUSED : Nat := 7

abbrev SERVICE_CONTROL_STOP : Nat := 1
abbrev SERVICE_CONTROL_PAUSE : Nat := 2
abbrev SERVICE_CONTROL_CONTINUE : Nat := 3
abbrev SERVICE_CONTROL_SHUTDOWN : Nat := 5

abbrev SERVICE_ACCEPT_STOP : Nat := 1
abbrev SERVICE_ACCEPT_PAUSE_CONTINUE : Nat := 2
abbrev SERVICE_ACCEPT_SHUTDOWN : Nat := 4

abbrev SERVICE_WIN32_OWN_PROCESS : Nat := 16
abbrev NO_ERROR : Nat := 0
abbrev ERROR_SERVICE_NOT_ACTIVE : Nat := 1062

/-- Number of values of an `unsigned long` (32 bits on Windows). -/
abbrev ULONG_RANGE : Nat := 4294967296

/-! ## Data model of `BaseService` -/

/-- The Windows `SERVICE_STATUS` record, all seven `DWORD` fields. -/
structure SERVICE_STATUS where
  dwServiceType : Nat
  dwCurrentState : Nat
  dwControlsAccepted : Nat
  dwWin32ExitCode : Nat
  dwServiceSpecificExitCode : Nat
  dwCheckPoint : Nat
  dwWaitHint : Nat
deriving DecidableEq, Repr

/-- The five virtual lifecycle hooks of `BaseService`. -/
inductive Hook where
  | onStart
  | onStop
  | onPause
  | onResume
  | onShutdown
deriving DecidableEq, Repr

/-- What a C++ `throw` can carry, as far as the `catch` clauses of the sources
tell the cases apart: a `DWORD`, a `std::exception` with its message, or
anything else. -/
inductive Thrown where
  | dword (error : Nat)
  | exception (what : String)
  | other
deriving DecidableEq, Repr

/-- Outcome of one invocation of a user hook. -/
inductive HookOutcome where
  | returns
  | throws (t : Thrown)
deriving DecidableEq, Repr

/-- Observable events of the host: `SetServiceStatus(handle, &status)` calls
and invocations of user hooks, in program order. -/
inductive Event where
  | report (handle : Nat) (status : SERVICE_STATUS)
  | hook (h : Hook)
deriving DecidableEq, Repr

/-- The fields of a `BaseService` object, the function-local
`static unsigned long checkPoint` of `setStatus`, and the event trace. -/
structure BaseService where
  _name : String
  _status : SERVICE_STATUS
  _statusHandle : Nat
  checkPoint : Nat
  events : List Event
deriving DecidableEq, Repr

/-- A member function: runs on the object, ends normally with a value or with
a thrown object, and leaves the object in its new state either way. -/
def Exec (α : Type) : Type := BaseService → Except Thrown α × BaseService

namespace Exec

/-- Normal return. -/
def ret {α : Type} (a : α) : Exec α := fun s => (Except.ok a, s)

/-- Sequencing: the second statement runs only when the first did not throw. -/
def seq {α β : Type} (m : Exec α) (f : α → Exec β) : Exec β := fun s =>
  match m s with
  | (Except.ok a, s1) => f a s1
  | (Except.error t, s1) => (Except.error t, s1)

/-- The statement `throw t;`. -/
def raise {α : Type} (t : Thrown) : Exec α := fun s => (Except.error t, s)

/-- A `try` block with its handlers: `handler t` is the body of the first
`catch` clause that matches `t`. -/
def tryCatch {α : Type} (body : Exec α) (handler : Thrown → Exec α) : Exec α := fun s =>
  match body s with
  | (Except.ok a, s1) => (Except.ok a, s1)
  | (Except.error t, s1) => handler t s1

/-- Reads the object. -/
def read : Exec BaseService := fun s => (Except.ok s, s)

/-- Overwrites the object. -/
def write (s : BaseService) : Exec Unit := fun _ => (Except.ok (), s)

end Exec

instance : Monad Exec where
  pure := Exec.ret
  bind := Exec.seq

namespace BaseService

/-- The constructor `BaseService(name, canStop, canShutdown, canPauseContinue)`.
The constructor does not touch the static `checkPoint` of `setStatus`, which is
one per process: `checkPoint` is its value when the host is constructed, 1 in
a process in which `setStatus` has not yet reported a pending state. -/
def new (name : String) (canStop : Bool) (canShutdown : Bool) (canPauseContinue : Bool)
    (checkPoint : Nat) : BaseService :=
  let c0 : Nat := 0
  let c1 := if canStop then c0 ||| SERVICE_ACCEPT_STOP else c0
  let c2 := if canShutdown then c1 ||| SERVICE_ACCEPT_SHUTDOWN else c1
  let c3 := if canPauseContinue then c2 ||| SERVICE_ACCEPT_PAUSE_CONTINUE else c2
  { _name := name
    _status :=
      { dwControlsAccepted := c3
        dwServiceType := SERVICE_WIN32_OWN_PROCESS
        dwCurrentState := SERVICE_START_PENDING
        dwWin32ExitCode := NO_ERROR
        dwServiceSpecificExitCode := 0
        dwCheckPoint := 0
        dwWaitHint := 0 }
    _statusHandle := 0
    checkPoint := checkPoint
    events := [] }

/-- The body of `setStatus` as a function on the object. -/
def setStatusOn (currentState exitCode waitHint : Nat) (s : BaseService) : BaseService :=
  let stable := currentState == SERVICE_RUNNING || currentState == SERVICE_STOPPED
  let st : SERVICE_STATUS :=
    { s._status with
      dwCurrentState := currentState
      dwWin32ExitCode := exitCode
      dwWaitHint := waitHint
      dwCheckPoint := if stable then 0 else s.checkPoint }
  { s with
    _status := st
    checkPoint := if stable then s.checkPoint else (s.checkPoint + 1) % ULONG_RANGE
    events := s.events ++ [Event.report s._statusHandle st] }

/-- Function `setStatus(currentState, exitCode = NO_ERROR, waitHint = 0)`. -/
def setStatus (currentState : Nat) (exitCode : Nat := NO_ERROR) (waitHint : Nat := 0) :
    Exec Unit :=
  fun s => (Except.ok (), setStatusOn currentState exitCode waitHint s)

/-- A call of the virtual hook `h` whose user code ends as `o` says. -/
def callHook (h : Hook) (o : HookOutcome) : Exec Unit := fun s =>
  let s1 := { s with events := s.events ++ [Event.hook h] }
  match o with
  | HookOutcome.returns => (Except.ok (), s1)
  | HookOutcome.throws t => (Except.error t, s1)

/-- Function `start(argc, argv)`; `o` is the outcome of `onStart`. -/
def start (o : HookOutcome) : Exec Unit :=
  Exec.tryCatch
    (do
      setStatus SERVICE_START_PENDING
      setStatus SERVICE_RUNNING
      callHook Hook.onStart o)
    (fun t =>
      match t with
      | Thrown.dword error => do
          setStatus SERVICE_STOPPED error
          Exec.raise (Thrown.exception "Service start error")
      | _ => do
          setStatus SERVICE_STOPPED
          Exec.raise (Thrown.exception "Service failed to start"))

/-- Function `stop()`; `o` is the outcome of `onStop`. -/
def stop (o : HookOutcome) : Exec Unit := do
  let original_state := (← Exec.read)._status.dwCurrentState
  Exec.tryCatch
    (do
      setStatus SERVICE_STOP_PENDING
      callHook Hook.onStop o
      setStatus SERVICE_STOPPED)
    (fun t =>
      match t with
      | Thrown.dword _ => setStatus original_state
      | _ => setStatus original_state)

/-- Function `pause()`; `o` is the outcome of `onPause`. -/
def pause (o : HookOutcome) : Exec Unit :=
  Exec.tryCatch
    (do
      setStatus SERVICE_PAUSE_PENDING
      callHook Hook.onPause o
      setStatus SERVICE_PAUSED)
    (fun t =>
      match t with
      | Thrown.dword _ => setStatus SERVICE_RUNNING
      | _ => setStatus SERVICE_RUNNING)

/-- Function `resume()`; `o` is the outcome of `onResume`. -/
def resume (o : HookOutcome) : Exec Unit :=
  Exec.tryCatch
    (do
      setStatus SERVICE_CONTINUE_PENDING
      callHook Hook.onResume o
      setStatus SERVICE_RUNNING)
    (fun t =>
      match t with
      | Thrown.dword _ => setStatus SERVICE_PAUSED
      | _ => setStatus SERVICE_PAUSED)

/-- Function `shutdown()`; `o` is the outcome of `onShutdown`. Both handlers are empty. -/
def shutdown (o : HookOutcome) : Exec Unit :=
  Exec.tryCatch
    (do
      callHook Hook.onShutdown o
      setStatus SERVICE_STOPPED)
    (fun t =>
      match t with
      | Thrown.dword _ => pure ()
      | _ => pure ())

/-- Function `handleControl(control)`; `o` is the outcome of the hook that the selected
transition calls. -/
def handleControl (control : Nat) (o : HookOutcome) : Exec Unit :=
  if control = SERVICE_CONTROL_STOP then stop o
  else if control = SERVICE_CONTROL_PAUSE then pause o
  else if control = SERVICE_CONTROL_CONTINUE then resume o
  else if control = SERVICE_CONTROL_SHUTDOWN then shutdown o
  else pure ()

/-- The service entry point `main(argc, argv)`; `registered` is the handle
returned by `RegisterServiceCtrlHandler` (0 on failure) and `o` the outcome of
`onStart`. -/
def main (registered : Nat) (o : HookOutcome) : Exec Unit := do
  let s ← Exec.read
  Exec.write { s with _statusHandle := registered }
  if registered ≠ 0 then
    start o

end BaseService

/-! ## Data model of `ServiceManager` -/

abbrev SC_MANAGER_CONNECT : Nat := 1
abbrev SC_MANAGER_CREATE_SERVICE : Nat := 2
abbrev SERVICE_CHANGE_CONFIG : Nat := 2
abbrev SERVICE_QUERY_STATUS : Nat := 4
abbrev SERVICE_START : Nat := 16
abbrev SERVICE_STOP : Nat := 32
abbrev DELETE : Nat := 65536

/-- Calls made by `ServiceManager` into the platform, in program order; the
calls that return a handle are recorded with the handle returned (0 is
`NULL`). -/
inductive Call where
  | OpenSCManager (access : Nat) (result : Nat)
  | OpenService (manager : Nat) (name : String) (access : Nat) (result : Nat)
  | CreateService (manager : Nat) (name : String) (access : Nat) (result : Nat)
  | ChangeServiceConfig2 (service : Nat)
  | StartService (service : Nat)
  | ControlService (service : Nat) (control : Nat)
  | QueryServiceStatus (service : Nat)
  | Sleep (milliseconds : Nat)
  | DeleteService (service : Nat)
  | CloseServiceHandle (handle : Nat)
  | cout (what : String)
deriving DecidableEq, Repr

/-- Scripted outcomes of the platform calls of one `ServiceManager` operation.
Every call except `QueryServiceStatus` is made at most once per operation. -/
structure Scm where
  /-- Handle returned by `OpenSCManager`, 0 on failure. -/
  openSCManager : Nat
  /-- Handle returned by `OpenService`, 0 on failure. -/
  openService : Nat
  /-- Handle returned by `CreateService`, 0 on failure. -/
  createService : Nat
  /-- Whether `ChangeServiceConfig2` returns non-zero. -/
  changeServiceConfig2 : Bool
  /-- Whether `StartService` returns non-zero. -/
  startService : Bool
  /-- Whether `ControlService` returns non-zero. -/
  controlService : Bool
  /-- Value of `GetLastError()` after `ControlService`. -/
  controlLastError : Nat
  /-- The `dwCurrentState` that `ControlService` stores in its out-parameter,
  when it fills it in. -/
  controlStatus : Option Nat
  /-- The k-th `QueryServiceStatus` call (from 0): `none` when it returns 0,
  else the `dwCurrentState` it stores. -/
  queryServiceStatus : Nat → Option Nat
  /-- Whether `DeleteService` returns non-zero. -/
  deleteService : Bool

/-- The activation of one `ServiceManager` operation: the calls made so far,
the number of status queries made so far, and the two handle locals of
`controlService` / `installService`. -/
structure Run where
  calls : List Call
  queries : Nat
  services_manager : Nat
  service_handle : Nat
deriving DecidableEq, Repr

/-- State on entry: nothing called, both locals `NULL`. -/
def Run.init : Run :=
  { calls := [], queries := 0, services_manager := 0, service_handle := 0 }

/-- How an operation ends: it returns, it throws, or it is still inside the
poll loop of `serviceStop` after the number of iterations looked at. -/
inductive Ending (α : Type) where
  | returned (a : α)
  | raised (t : Thrown)
  | polling
deriving DecidableEq, Repr

/-- A `ServiceManager` function. -/
def Op (α : Type) : Type := Run → Ending α × Run

namespace Op

/-- Normal return. -/
def ret {α : Type} (a : α) : Op α := fun r => (Ending.returned a, r)

/-- Sequencing of statements. -/
def seq {α β : Type} (m : Op α) (f : α → Op β) : Op β := fun r =>
  match m r with
  | (Ending.returned a, r1) => f a r1
  | (Ending.raised t, r1) => (Ending.raised t, r1)
  | (Ending.polling, r1) => (Ending.polling, r1)

/-- The statement `throw t;`. -/
def raise {α : Type} (t : Thrown) : Op α := fun r => (Ending.raised t, r)

/-- The block `try body catch (const std::exception& ex) handler`: only a
`std::exception` is caught. -/
def tryCatchException {α : Type} (body : Op α) (handler : String → Op α) : Op α := fun r =>
  match body r with
  | (Ending.raised (Thrown.exception what), r1) => handler what r1
  | other => other

/-- Records a platform call. -/
def call (c : Call) : Op Unit := fun r =>
  (Ending.returned (), { r with calls := r.calls ++ [c] })

/-- Reads the activation. -/
def read : Op Run := fun r => (Ending.returned r, r)

/-- Overwrites the activation. -/
def write (r : Run) : Op Unit := fun _ => (Ending.returned (), r)

end Op

instance : Monad Op where
  pure := Op.ret
  bind := Op.seq

namespace ServiceManager

/-- The private `enum class Action`. -/
inductive Action where
  | START
  | STOP
  | UNINSTALL
deriving DecidableEq, Repr

abbrev STATE_CHANGE_WAIT : Nat := 1000

/-- Function `serviceOpenManager(manager_access)`. -/
def serviceOpenManager (w : Scm) (manager_access : Nat) : Op Nat := do
  let services_manager := w.openSCManager
  Op.call (Call.OpenSCManager manager_access services_manager)
  if services_manager = 0 then
    Op.raise (Thrown.exception "OpenSCManager failed")
  else
    pure services_manager

/-- Function `serviceSetDescription(service_handle, service_description)`. -/
def serviceSetDescription (w : Scm) (service_handle : Nat) : Op Unit := do
  Op.call (Call.ChangeServiceConfig2 service_handle)
  if w.changeServiceConfig2 = false then
    Op.raise (Thrown.exception "ChangeServiceConfig2 failed")
  else
    pure ()

/-- Function `serviceCreate(services_manager, ..., service_access, service_name, ...)`. -/
def serviceCreate (w : Scm) (services_manager : Nat) (service_access : Nat)
    (service_name : String) : Op Nat := do
  let service_handle := w.createService
  Op.call (Call.CreateService services_manager service_name service_access service_handle)
  if service_handle = 0 then
    Op.raise (Thrown.exception "CreateService failed")
  else
    pure service_handle

/-- Function `serviceOpen(services_manager, service_name, service_access)`. -/
def serviceOpen (w : Scm) (services_manager : Nat) (service_name : String)
    (service_access : Nat) : Op Nat := do
  let service_handle := w.openService
  Op.call (Call.OpenService services_manager service_name service_access service_handle)
  if service_handle = 0 then
    Op.raise (Thrown.exception "OpenService failed")
  else
    pure service_handle

/-- Function `serviceStart(service_handle)`. -/
def serviceStart (w : Scm) (service_handle : Nat) : Op Unit := do
  Op.call (Call.StartService service_handle)
  if w.startService = false then
    Op.raise (Thrown.exception "StartService failed")
  else
    pure ()

/-- The `while` loop of `serviceStop`, looked at for at most `fuel`
evaluations of its condition; `state` is `service_status.dwCurrentState` and
the value returned is its value when the loop is left. -/
def pollLoop (w : Scm) (service_handle : Nat) : Nat → Nat → Op Nat
  | 0, _ => fun r => (Ending.polling, r)
  | fuel + 1, state => do
      let r ← Op.read
      Op.call (Call.QueryServiceStatus service_handle)
      Op.write { (← Op.read) with queries := r.queries + 1 }
      match w.queryServiceStatus r.queries with
      | none => pure state
      | some queried =>
          if queried = SERVICE_STOP_PENDING then do
            Op.call (Call.Sleep STATE_CHANGE_WAIT)
            pollLoop w service_handle fuel queried
          else
            pure queried

/-- Function `serviceStop(service_handle)`. -/
def serviceStop (w : Scm) (fuel : Nat) (service_handle : Nat) : Op Unit := do
  let zeroed : Nat := 0
  Op.call (Call.ControlService service_handle SERVICE_CONTROL_STOP)
  let state := match w.controlStatus with
    | some written => written
    | none => zeroed
  if w.controlService = false ∧ w.controlLastError ≠ ERROR_SERVICE_NOT_ACTIVE then
    Op.raise (Thrown.exception "ControlService failed")
  else do
    let last ← pollLoop w service_handle fuel state
    if last ≠ SERVICE_STOPPED then
      Op.raise (Thrown.exception "Service state is not SERVICE_STOPPED")
    else
      pure ()

/-- Function `serviceDelete(service_handle)`. -/
def serviceDelete (w : Scm) (service_handle : Nat) : Op Unit := do
  Op.call (Call.DeleteService service_handle)
  if w.deleteService = false then
    Op.raise (Thrown.exception "DeleteService failed")
  else
    pure ()

/-- Function `serviceCleanupHandle(handle)`. -/
def serviceCleanupHandle (handle : Nat) : Op Unit :=
  if handle ≠ 0 then
    Op.call (Call.CloseServiceHandle handle)
  else
    pure ()

/-- Function `serviceCleanupHandles(service_handle, service_control_manager)`. -/
def serviceCleanupHandles (service_handle : Nat) (service_control_manager : Nat) : Op Unit := do
  serviceCleanupHandle service_handle
  serviceCleanupHandle service_control_manager

/-- Function `controlService(service_name, service_action, service_access, manager_access)`.
The `default:` label of the `switch` has no counterpart: `Action` has three
values. -/
def controlService (w : Scm) (fuel : Nat) (service_name : String) (service_action : Action)
    (service_access : Nat) (manager_access : Nat) : Op Unit := do
  Op.write { (← Op.read) with services_manager := 0, service_handle := 0 }
  Op.tryCatchException
    (do
      let m ← serviceOpenManager w manager_access
      Op.write { (← Op.read) with services_manager := m }
      let h ← serviceOpen w (← Op.read).services_manager service_name service_access
      Op.write { (← Op.read) with service_handle := h }
      match service_action with
      | Action.START => serviceStart w (← Op.read).service_handle
      | Action.STOP => serviceStop w fuel (← Op.read).service_handle
      | Action.UNINSTALL => do
          serviceStop w fuel (← Op.read).service_handle
          serviceDelete w (← Op.read).service_handle)
    (fun what => do
      Op.call (Call.cout what)
      let r ← Op.read
      serviceCleanupHandles r.service_handle r.services_manager
      Op.raise (Thrown.exception what))
  let r ← Op.read
  serviceCleanupHandles r.service_handle r.services_manager

/-- Function `installService(service_path, service_name, ...)`. -/
def installService (w : Scm) (service_name : String) : Op Unit := do
  let manager_access := SC_MANAGER_CONNECT ||| SC_MANAGER_CREATE_SERVICE
  let service_access := SERVICE_CHANGE_CONFIG
  Op.write { (← Op.read) with services_manager := 0, service_handle := 0 }
  Op.tryCatchException
    (do
      let m ← serviceOpenManager w manager_access
      Op.write { (← Op.read) with services_manager := m }
      let h ← serviceCreate w (← Op.read).services_manager service_access service_name
      Op.write { (← Op.read) with service_handle := h }
      serviceSetDescription w (← Op.read).service_handle)
    (fun what => do
      let r ← Op.read
      serviceCleanupHandles r.service_handle r.services_manager
      Op.raise (Thrown.exception what))
  let r ← Op.read
  serviceCleanupHandles r.service_handle r.services_manager

/-- Function `uninstallService(service_name)`. -/
def uninstallService (w : Scm) (fuel : Nat) (service_name : String) : Op Unit :=
  let manager_access := SC_MANAGER_CONNECT
  let service_access := SERVICE_STOP ||| SERVICE_QUERY_STATUS ||| DELETE
  controlService w fuel service_name Action.UNINSTALL service_access manager_access

/-- Function `startService(service_name)`. -/
def startService (w : Scm) (fuel : Nat) (service_name : String) : Op Unit :=
  let manager_access := SC_MANAGER_CONNECT
  let service_access := SERVICE_START
  controlService w fuel service_name Action.START service_access manager_access

/-- Function `stopService(service_name)`. -/
def stopService (w : Scm) (fuel : Nat) (service_name : String) : Op Unit :=
  let manager_access := SC_MANAGER_CONNECT
  let service_access := SERVICE_STOP ||| SERVICE_QUERY_STATUS
  controlService w fuel service_name Action.STOP service_access manager_access

end ServiceManager

/-! ## Runs and observations of the host -/

/-- One call from the SCM into the host: the service entry point `main`, with
the handle that handler registration returns and the outcome of `onStart`, or
the control handler, with the control code and the outcome of the hook of the
transition it selects. -/
inductive Delivery where
  | launch (registered : Nat) (o : HookOutcome)
  | control (code : Nat) (o : HookOutcome)
deriving DecidableEq, Repr

/-- The call that a delivery stands for. -/
def deliver (d : Delivery) : Exec Unit :=
  match d with
  | Delivery.launch registered o => BaseService.main registered o
  | Delivery.control code o => BaseService.handleControl code o

/-- The host after a sequence of deliveries, each run to its end. -/
def deliveries (ds : List Delivery) (s : BaseService) : BaseService :=
  ds.foldl (fun acc d => (deliver d acc).2) s

/-- The arguments of one `setStatus` call. -/
structure StatusCall where
  currentState : Nat
  exitCode : Nat
  waitHint : Nat
deriving DecidableEq, Repr

/-- The host after a sequence of `setStatus` calls. -/
def setStatusCalls (cs : List StatusCall) (s : BaseService) : BaseService :=
  cs.foldl (fun acc c => BaseService.setStatusOn c.currentState c.exitCode c.waitHint acc) s

/-- Whether a state is one of the two for which `setStatus` reports
checkpoint 0. -/
def isStable (state : Nat) : Bool :=
  state == SERVICE_RUNNING || state == SERVICE_STOPPED

/-- Number of calls in the sequence whose state is neither Running nor
Stopped. -/
def pendingCount (cs : List StatusCall) : Nat :=
  (cs.filter (fun c => !isStable c.currentState)).length

/-- The status records reported to the SCM, oldest first. -/
def reports (s : BaseService) : List SERVICE_STATUS :=
  s.events.filterMap (fun e =>
    match e with
    | Event.report _ status => some status
    | Event.hook _ => none)

/-- A reported checkpoint is 0 exactly for the states Running and Stopped. -/
def ZeroIffStable (rs : List SERVICE_STATUS) : Prop :=
  ∀ r ∈ rs, (r.dwCheckPoint = 0 ↔
    (r.dwCurrentState = SERVICE_RUNNING ∨ r.dwCurrentState = SERVICE_STOPPED))

/-- Of two reports whose states are neither Running nor Stopped, the later one
has the greater checkpoint. -/
def PendingIncreasing (rs : List SERVICE_STATUS) : Prop :=
  rs.Pairwise (fun earlier later =>
    isStable earlier.dwCurrentState = false → isStable later.dwCurrentState = false →
      earlier.dwCheckPoint < later.dwCheckPoint)

/-- An event with the reported record cut down to its state. -/
inductive Step where
  | reported (state : Nat)
  | invoked (h : Hook)
deriving DecidableEq, Repr

/-- The events of the host as steps, oldest first. -/
def trace (s : BaseService) : List Step :=
  s.events.map (fun e =>
    match e with
    | Event.report _ status => Step.reported status.dwCurrentState
    | Event.hook h => Step.invoked h)

/-- The steps that `after` has made beyond those of `before`. -/
def newSteps (before after : BaseService) : List Step :=
  (trace after).drop (trace before).length

/-! ## Observations of a `ServiceManager` operation -/

/-- The non-`NULL` handles returned by `OpenSCManager`, `OpenService` and
`CreateService`, in call order. -/
def obtained (calls : List Call) : List Nat :=
  calls.filterMap (fun c =>
    match c with
    | Call.OpenSCManager _ result => if result = 0 then none else some result
    | Call.OpenService _ _ _ result => if result = 0 then none else some result
    | Call.CreateService _ _ _ result => if result = 0 then none else some result
    | _ => none)

/-- The handles passed to `CloseServiceHandle`, in call order. -/
def closed (calls : List Call) : List Nat :=
  calls.filterMap (fun c =>
    match c with
    | Call.CloseServiceHandle handle => some handle
    | _ => none)

/-- Whether `DeleteService` was called. -/
def deleteIssued (calls : List Call) : Bool :=
  calls.any (fun c =>
    match c with
    | Call.DeleteService _ => true
    | _ => false)

/-- The stop signal was accepted, or rejected with the already-inactive
error. -/
def stopAccepted (w : Scm) : Prop :=
  w.controlService = true ∨ w.controlLastError = ERROR_SERVICE_NOT_ACTIVE

/-- The poll loop ends at its query number `n` (from 0): the queries before it
succeed with StopPending, and query `n` fails or gives another state. -/
def pollEndsAt (w : Scm) (n : Nat) : Prop :=
  (∀ i, i < n → w.queryServiceStatus i = some SERVICE_STOP_PENDING) ∧
    w.queryServiceStatus n ≠ some SERVICE_STOP_PENDING

/-- The state last stored in `service_status` when the poll loop ends at
query `n`: what that query gives; when it fails, what the query before it gave
(StopPending), and for `n = 0` what `ControlService` stored, if anything, in
the zero-initialised record. -/
def lastObserved (w : Scm) (n : Nat) : Nat :=
  match w.queryServiceStatus n with
  | some queried => queried
  | none =>
      if n = 0 then
        match w.controlStatus with
        | some written => written
        | none => 0
      else SERVICE_STOP_PENDING

/-- A script for an installed, running service: every call succeeds, the stop
signal is accepted, the first status query reports StopPending and the later
ones Stopped. -/
def runningService : Scm :=
  { openSCManager := 10
    openService := 20
    createService := 30
    changeServiceConfig2 := true
    startService := true
    controlService := true
    controlLastError := 0
    controlStatus := some SERVICE_STOP_PENDING
    queryServiceStatus := fun k => if k = 0 then some SERVICE_STOP_PENDING else some SERVICE_STOPPED
    deleteService := true }

/-- A script for an installed service that is already stopped: both opens
succeed, the stop signal is rejected with the already-inactive error, and every
status query reports Stopped. -/
def stoppedService : Scm :=
  { openSCManager := 10
    openService := 20
    createService := 0
    changeServiceConfig2 := false
    startService := false
    controlService := false
    controlLastError := ERROR_SERVICE_NOT_ACTIVE
    controlStatus := some SERVICE_STOPPED
    queryServiceStatus := fun _ => some SERVICE_STOPPED
    deleteService := false }

/-! ## The launch entry point `BaseService::run` and its exception classes -/

abbrev ERROR_FAILED_SERVICE_CONTROLLER_CONNECT : Nat := 1063

/-- The class `ServiceExecutionTypeException`: a `std::exception` with a fixed
message. -/
structure ServiceExecutionTypeException where
  what : String
deriving DecidableEq, Repr

/-- The constructor `ServiceExecutionTypeException()`. -/
def ServiceExecutionTypeException.new : ServiceExecutionTypeException :=
  { what := "Trying to run service as a console application" }

/-- The class `WinApiLastErrorException`: a `std::runtime_error` with the public
member `lastErrorCode`. -/
structure WinApiLastErrorException where
  what : String
  lastErrorCode : Nat
deriving DecidableEq, Repr

/-- The constructor `WinApiLastErrorException(message, lastError)`. -/
def WinApiLastErrorException.new (message : String) (lastError : Nat) :
    WinApiLastErrorException :=
  { what := message, lastErrorCode := lastError }

/-- What `run` can throw. -/
inductive RunThrown where
  | serviceExecutionType (e : ServiceExecutionTypeException)
  | winApiLastError (e : WinApiLastErrorException)
deriving DecidableEq, Repr

/-- Outcome of the `StartServiceCtrlDispatcher` call of `run`: the `BOOL` it
returns, the value of `GetLastError()` after it, and the calls the SCM made into
the host while it was running. -/
structure Dispatcher where
  result : Nat
  lastError : Nat
  served : List Delivery
deriving DecidableEq, Repr

/-- Function `run(service)`: hands the host to the dispatcher and, when the
dispatcher returns 0, throws according to the last error code. -/
def BaseService.run (d : Dispatcher) (service : BaseService) :
    Except RunThrown Unit × BaseService :=
  let host := deliveries d.served service
  if d.result = 0 then
    if d.lastError = ERROR_FAILED_SERVICE_CONTROLLER_CONNECT then
      (Except.error (RunThrown.serviceExecutionType ServiceExecutionTypeException.new), host)
    else
      (Except.error (RunThrown.winApiLastError
        (WinApiLastErrorException.new "Run service StartServiceCtrlDispatcher failed"
          d.lastError)), host)
  else
    (Except.ok (), host)

/-! ## States and capabilities of the host -/

/-- The seven service states of the lifecycle. -/
def lifecycleStates : List Nat :=
  [SERVICE_START_PENDING, SERVICE_RUNNING, SERVICE_PAUSE_PENDING, SERVICE_PAUSED,
    SERVICE_CONTINUE_PENDING, SERVICE_STOP_PENDING, SERVICE_STOPPED]

/-- Every value that `setStatus` has stored in `dwCurrentState`, oldest
first. -/
def reportedStates (s : BaseService) : List Nat :=
  (trace s).filterMap (fun step =>
    match step with
    | Step.reported state => some state
    | Step.invoked _ => none)

/-- Whether the bit of `capability` is set in `dwControlsAccepted`. -/
def accepts (status : SERVICE_STATUS) (capability : Nat) : Bool :=
  status.dwControlsAccepted &&& capability != 0

/-! ## Basic facts about the embedding -/

theorem Exec.exec_bind {α β : Type} (m : Exec α) (f : α → Exec β) :
    (m >>= f) = Exec.seq m f := rfl

theorem Exec.exec_pure {α : Type} (a : α) : (pure a : Exec α) = Exec.ret a := rfl

theorem Op.op_bind {α β : Type} (m : Op α) (f : α → Op β) :
    (m >>= f) = Op.seq m f := rfl

theorem Op.op_pure {α : Type} (a : α) : (pure a : Op α) = Op.ret a := rfl

open BaseService

/-! ## The lifecycle host: traces of the transitions -/

theorem trace_start (o : HookOutcome) (s : BaseService) :
    trace (start o s).2 = trace s ++
      (Step.reported SERVICE_START_PENDING :: Step.reported SERVICE_RUNNING ::
        Step.invoked Hook.onStart ::
        match o with
        | HookOutcome.returns => []
        | HookOutcome.throws _ => [Step.reported SERVICE_STOPPED]) := by
  cases o with
  | returns => simp [trace, start, Exec.exec_bind, Exec.seq, Exec.tryCatch, setStatus, callHook,
      setStatusOn]
  | throws t => cases t <;> simp [trace, start, Exec.exec_bind, Exec.seq, Exec.tryCatch,
      setStatus, callHook, setStatusOn, Exec.raise]

theorem trace_stop (o : HookOutcome) (s : BaseService) :
    trace (stop o s).2 = trace s ++
      [Step.reported SERVICE_STOP_PENDING, Step.invoked Hook.onStop,
        Step.reported (match o with
          | HookOutcome.returns => SERVICE_STOPPED
          | HookOutcome.throws _ => s._status.dwCurrentState)] := by
  cases o with
  | returns => simp [trace, stop, Exec.exec_bind, Exec.seq, Exec.tryCatch, setStatus, callHook,
      Exec.read, setStatusOn]
  | throws t => cases t <;> simp [trace, stop, Exec.exec_bind, Exec.seq, Exec.tryCatch,
      setStatus, callHook, Exec.read, setStatusOn]

theorem trace_pause (o : HookOutcome) (s : BaseService) :
    trace (pause o s).2 = trace s ++
      [Step.reported SERVICE_PAUSE_PENDING, Step.invoked Hook.onPause,
        Step.reported (match o with
          | HookOutcome.returns => SERVICE_PAUSED
          | HookOutcome.throws _ => SERVICE_RUNNING)] := by
  cases o with
  | returns => simp [trace, pause, Exec.exec_bind, Exec.seq, Exec.tryCatch, setStatus, callHook,
      setStatusOn]
  | throws t => cases t <;> simp [trace, pause, Exec.exec_bind, Exec.seq, Exec.tryCatch,
      setStatus, callHook, setStatusOn]

theorem trace_resume (o : HookOutcome) (s : BaseService) :
    trace (resume o s).2 = trace s ++
      [Step.reported SERVICE_CONTINUE_PENDING, Step.invoked Hook.onResume,
        Step.reported (match o with
          | HookOutcome.returns => SERVICE_RUNNING
          | HookOutcome.throws _ => SERVICE_PAUSED)] := by
  cases o with
  | returns => simp [trace, resume, Exec.exec_bind, Exec.seq, Exec.tryCatch, setStatus, callHook,
      setStatusOn]
  | throws t => cases t <;> simp [trace, resume, Exec.exec_bind, Exec.seq, Exec.tryCatch,
      setStatus, callHook, setStatusOn]

theorem trace_shutdown (o : HookOutcome) (s : BaseService) :
    trace (shutdown o s).2 = trace s ++
      (Step.invoked Hook.onShutdown ::
        match o with
        | HookOutcome.returns => [Step.reported SERVICE_STOPPED]
        | HookOutcome.throws _ => []) := by
  cases o with
  | returns => simp [trace, shutdown, Exec.exec_bind, Exec.seq, Exec.tryCatch, setStatus,
      callHook, setStatusOn]
  | throws t => cases t <;> simp [trace, shutdown, Exec.exec_bind, Exec.seq, Exec.tryCatch,
      setStatus, callHook, setStatusOn, Exec.exec_pure, Exec.ret]

theorem newSteps_of_trace (s s1 : BaseService) (steps : List Step)
    (h : trace s1 = trace s ++ steps) : newSteps s s1 = steps := by
  unfold newSteps
  rw [h, List.drop_left]

/-! ## The lifecycle host: the state a transition ends in -/

theorem start_state (o : HookOutcome) (s : BaseService) :
    (start o s).2._status.dwCurrentState =
      match o with
      | HookOutcome.returns => SERVICE_RUNNING
      | HookOutcome.throws _ => SERVICE_STOPPED := by
  cases o with
  | returns => rfl
  | throws t => cases t <;> rfl

theorem stop_state (o : HookOutcome) (s : BaseService) :
    (stop o s).2._status.dwCurrentState =
      match o with
      | HookOutcome.returns => SERVICE_STOPPED
      | HookOutcome.throws _ => s._status.dwCurrentState := by
  cases o with
  | returns => rfl
  | throws t => cases t <;> rfl

theorem pause_state (o : HookOutcome) (s : BaseService) :
    (pause o s).2._status.dwCurrentState =
      match o with
      | HookOutcome.returns => SERVICE_PAUSED
      | HookOutcome.throws _ => SERVICE_RUNNING := by
  cases o with
  | returns => rfl
  | throws t => cases t <;> rfl

theorem resume_state (o : HookOutcome) (s : BaseService) :
    (resume o s).2._status.dwCurrentState =
      match o with
      | HookOutcome.returns => SERVICE_RUNNING
      | HookOutcome.throws _ => SERVICE_PAUSED := by
  cases o with
  | returns => rfl
  | throws t => cases t <;> rfl

theorem shutdown_status (o : HookOutcome) (s : BaseService) :
    (shutdown o s).2._status =
      match o with
      | HookOutcome.returns => (setStatusOn SERVICE_STOPPED NO_ERROR 0 s)._status
      | HookOutcome.throws _ => s._status := by
  cases o with
  | returns => rfl
  | throws t => cases t <;> rfl

/-! ## The lifecycle host: control dispatch and hook faults -/

theorem handleControl_unrecognized (control : Nat) (o : HookOutcome) (s : BaseService)
    (h1 : control ≠ SERVICE_CONTROL_STOP) (h2 : control ≠ SERVICE_CONTROL_PAUSE)
    (h3 : control ≠ SERVICE_CONTROL_CONTINUE) (h4 : control ≠ SERVICE_CONTROL_SHUTDOWN) :
    handleControl control o s = (Except.ok (), s) := by
  simp [handleControl, h1, h2, h3, h4, Exec.exec_pure, Exec.ret]

theorem handleControl_stop (o : HookOutcome) :
    handleControl SERVICE_CONTROL_STOP o = stop o := rfl

theorem handleControl_pause (o : HookOutcome) :
    handleControl SERVICE_CONTROL_PAUSE o = pause o := rfl

theorem handleControl_continue (o : HookOutcome) :
    handleControl SERVICE_CONTROL_CONTINUE o = resume o := rfl

theorem handleControl_shutdown (o : HookOutcome) :
    handleControl SERVICE_CONTROL_SHUTDOWN o = shutdown o := rfl

/-- C1, as stated, fails: a host built with canStop = true, canShutdown = true,
canPauseContinue = false and launched is Running and does not accept
PauseContinue, yet a Pause control code makes it report PausePending, call
`onPause` and report Paused. -/
theorem pause_delivered_without_capability :
    (deliveries [Delivery.launch 1 HookOutcome.returns]
        (BaseService.new "svc" true true false 1))._status.dwCurrentState = SERVICE_RUNNING ∧
    (deliveries [Delivery.launch 1 HookOutcome.returns]
        (BaseService.new "svc" true true false 1))._status.dwControlsAccepted
      &&& SERVICE_ACCEPT_PAUSE_CONTINUE = 0 ∧
    (handleControl SERVICE_CONTROL_PAUSE HookOutcome.returns
        (deliveries [Delivery.launch 1 HookOutcome.returns]
          (BaseService.new "svc" true true false 1))).2._status.dwCurrentState = SERVICE_PAUSED ∧
    newSteps
        (deliveries [Delivery.launch 1 HookOutcome.returns]
          (BaseService.new "svc" true true false 1))
        (handleControl SERVICE_CONTROL_PAUSE HookOutcome.returns
          (deliveries [Delivery.launch 1 HookOutcome.returns]
            (BaseService.new "svc" true true false 1))).2 =
      [Step.reported SERVICE_PAUSE_PENDING, Step.invoked Hook.onPause,
        Step.reported SERVICE_PAUSED] := by
  decide

/-- C1 (amended): for every combination of the constructor flags and every
state the host reaches, a control code other than Stop, Pause, Continue and
Shutdown leaves the whole object unchanged (no report, no hook) and returns.
`handleControl` never reads `dwControlsAccepted`: whatever the flags, Stop,
Pause, Continue and Shutdown run `stop`, `pause`, `resume` and `shutdown`.
Stop reports StopPending, calls `onStop` and reports Stopped (on a fault, the
state before it); Pause reports PausePending, calls `onPause` and reports
Paused (on a fault, Running); Continue reports ContinuePending, calls
`onResume` and reports Running (on a fault, Paused); Shutdown calls
`onShutdown` and then reports Stopped (on a fault, nothing); the host ends in
the state last reported, or, after a faulting `onShutdown`, in the state it
had. -/
theorem handleControl_dispatch (name : String) (canStop canShutdown canPauseContinue : Bool)
    (checkPoint : Nat) (ds : List Delivery) (o : HookOutcome) (control : Nat) :
    (control ≠ SERVICE_CONTROL_STOP → control ≠ SERVICE_CONTROL_PAUSE →
      control ≠ SERVICE_CONTROL_CONTINUE → control ≠ SERVICE_CONTROL_SHUTDOWN →
      handleControl control o
          (deliveries ds (BaseService.new name canStop canShutdown canPauseContinue checkPoint)) =
        (Except.ok (),
          deliveries ds (BaseService.new name canStop canShutdown canPauseContinue checkPoint))) ∧
    (handleControl SERVICE_CONTROL_STOP o
        (deliveries ds (BaseService.new name canStop canShutdown canPauseContinue checkPoint)) =
      stop o (deliveries ds (BaseService.new name canStop canShutdown canPauseContinue checkPoint)) ∧
    handleControl SERVICE_CONTROL_PAUSE o
        (deliveries ds (BaseService.new name canStop canShutdown canPauseContinue checkPoint)) =
      pause o (deliveries ds (BaseService.new name canStop canShutdown canPauseContinue checkPoint)) ∧
    handleControl SERVICE_CONTROL_CONTINUE o
        (deliveries ds (BaseService.new name canStop canShutdown canPauseContinue checkPoint)) =
      resume o (deliveries ds (BaseService.new name canStop canShutdown canPauseContinue checkPoint)) ∧
    handleControl SERVICE_CONTROL_SHUTDOWN o
        (deliveries ds (BaseService.new name canStop canShutdown canPauseContinue checkPoint)) =
      shutdown o (deliveries ds (BaseService.new name canStop canShutdown canPauseContinue checkPoint))) ∧
    (newSteps (deliveries ds (BaseService.new name canStop canShutdown canPauseContinue checkPoint))
        (handleControl SERVICE_CONTROL_STOP o
          (deliveries ds (BaseService.new name canStop canShutdown canPauseContinue checkPoint))).2 =
      [Step.reported SERVICE_STOP_PENDING, Step.invoked Hook.onStop,
        Step.reported (match o with
          | HookOutcome.returns => SERVICE_STOPPED
          | HookOutcome.throws _ =>
              (deliveries ds (BaseService.new name canStop canShutdown canPauseContinue checkPoint))._status.dwCurrentState)] ∧
    newSteps (deliveries ds (BaseService.new name canStop canShutdown canPauseContinue checkPoint))
        (handleControl SERVICE_CONTROL_PAUSE o
          (deliveries ds (BaseService.new name canStop canShutdown canPauseContinue checkPoint))).2 =
      [Step.reported SERVICE_PAUSE_PENDING, Step.invoked Hook.onPause,
        Step.reported (match o with
          | HookOutcome.returns => SERVICE_PAUSED
          | HookOutcome.throws _ => SERVICE_RUNNING)] ∧
    newSteps (deliveries ds (BaseService.new name canStop canShutdown canPauseContinue checkPoint))
        (handleControl SERVICE_CONTROL_CONTINUE o
          (deliveries ds (BaseService.new name canStop canShutdown canPauseContinue checkPoint))).2 =
      [Step.reported SERVICE_CONTINUE_PENDING, Step.invoked Hook.onResume,
        Step.reported (match o with
          | HookOutcome.returns => SERVICE_RUNNING
          | HookOutcome.throws _ => SERVICE_PAUSED)] ∧
    newSteps (deliveries ds (BaseService.new name canStop canShutdown canPauseContinue checkPoint))
        (handleControl SERVICE_CONTROL_SHUTDOWN o
          (deliveries ds (BaseService.new name canStop canShutdown canPauseContinue checkPoint))).2 =
      (Step.invoked Hook.onShutdown ::
        match o with
        | HookOutcome.returns => [Step.reported SERVICE_STOPPED]
        | HookOutcome.throws _ => [])) ∧
    ((handleControl SERVICE_CONTROL_STOP o
        (deliveries ds (BaseService.new name canStop canShutdown canPauseContinue checkPoint))).2._status.dwCurrentState =
      (match o with
        | HookOutcome.returns => SERVICE_STOPPED
        | HookOutcome.throws _ =>
            (deliveries ds (BaseService.new name canStop canShutdown canPauseContinue checkPoint))._status.dwCurrentState) ∧
    (handleControl SERVICE_CONTROL_PAUSE o
        (deliveries ds (BaseService.new name canStop canShutdown canPauseContinue checkPoint))).2._status.dwCurrentState =
      (match o with
        | HookOutcome.returns => SERVICE_PAUSED
        | HookOutcome.throws _ => SERVICE_RUNNING) ∧
    (handleControl SERVICE_CONTROL_CONTINUE o
        (deliveries ds (BaseService.new name canStop canShutdown canPauseContinue checkPoint))).2._status.dwCurrentState =
      (match o with
        | HookOutcome.returns => SERVICE_RUNNING
        | HookOutcome.throws _ => SERVICE_PAUSED) ∧
    (handleControl SERVICE_CONTROL_SHUTDOWN o
        (deliveries ds (BaseService.new name canStop canShutdown canPauseContinue checkPoint))).2._status.dwCurrentState =
      (match o with
        | HookOutcome.returns => SERVICE_STOPPED
        | HookOutcome.throws _ =>
            (deliveries ds (BaseService.new name canStop canShutdown canPauseContinue checkPoint))._status.dwCurrentState)) := by
  refine ⟨handleControl_unrecognized control o _, ⟨rfl, rfl, rfl, rfl⟩, ⟨?_, ?_, ?_, ?_⟩,
    ⟨?_, ?_, ?_, ?_⟩⟩
  · rw [handleControl_stop]; exact newSteps_of_trace _ _ _ (trace_stop o _)
  · rw [handleControl_pause]; exact newSteps_of_trace _ _ _ (trace_pause o _)
  · rw [handleControl_continue]; exact newSteps_of_trace _ _ _ (trace_resume o _)
  · rw [handleControl_shutdown]; exact newSteps_of_trace _ _ _ (trace_shutdown o _)
  · rw [handleControl_stop]; exact stop_state o _
  · rw [handleControl_pause]; exact pause_state o _
  · rw [handleControl_continue]; exact resume_state o _
  · rw [handleControl_shutdown, shutdown_status]
    cases o <;> rfl

/-- Witness for `handleControl_dispatch`: a launched host built with canStop =
true, canPauseContinue = false ignores control code 4 (interrogate), and on
Pause reports PausePending, calls `onPause`, reports Paused and ends Paused. -/
theorem handleControl_dispatch_witness :
    handleControl 4 HookOutcome.returns
        (deliveries [Delivery.launch 1 HookOutcome.returns]
          (BaseService.new "svc" true true false 1)) =
      (Except.ok (),
        deliveries [Delivery.launch 1 HookOutcome.returns]
          (BaseService.new "svc" true true false 1)) ∧
    newSteps
        (deliveries [Delivery.launch 1 HookOutcome.returns]
          (BaseService.new "svc" true true false 1))
        (handleControl SERVICE_CONTROL_PAUSE HookOutcome.returns
          (deliveries [Delivery.launch 1 HookOutcome.returns]
          (BaseService.new "svc" true true false 1))).2 =
      [Step.reported SERVICE_PAUSE_PENDING, Step.invoked Hook.onPause,
        Step.reported SERVICE_PAUSED] ∧
    (handleControl SERVICE_CONTROL_PAUSE HookOutcome.returns
        (deliveries [Delivery.launch 1 HookOutcome.returns]
          (BaseService.new "svc" true true false 1))).2._status.dwCurrentState = SERVICE_PAUSED :=
  ⟨(handleControl_dispatch "svc" true true false 1 [Delivery.launch 1 HookOutcome.returns]
      HookOutcome.returns 4).1 (by decide) (by decide) (by decide) (by decide),
    (handleControl_dispatch "svc" true true false 1 [Delivery.launch 1 HookOutcome.returns]
      HookOutcome.returns 4).2.2.1.2.1,
    (handleControl_dispatch "svc" true true false 1 [Delivery.launch 1 HookOutcome.returns]
      HookOutcome.returns 4).2.2.2.2.1⟩

/-! ## The lifecycle host: states between deliveries -/

theorem main_state (registered : Nat) (o : HookOutcome) (s : BaseService) :
    (main registered o s).2._status.dwCurrentState =
      if registered = 0 then s._status.dwCurrentState
      else match o with
        | HookOutcome.returns => SERVICE_RUNNING
        | HookOutcome.throws _ => SERVICE_STOPPED := by
  by_cases h : registered = 0
  · subst h; rfl
  · have e : main registered o s = start o { s with _statusHandle := registered } := by
      simp [main, h, Exec.exec_bind, Exec.seq, Exec.read, Exec.write]
    rw [e, start_state, if_neg h]

/-- Between deliveries the host is in one of the four states in which a
transition can leave it. -/
theorem deliver_settled (d : Delivery) (s : BaseService)
    (h : s._status.dwCurrentState = SERVICE_START_PENDING ∨
      s._status.dwCurrentState = SERVICE_RUNNING ∨
      s._status.dwCurrentState = SERVICE_PAUSED ∨
      s._status.dwCurrentState = SERVICE_STOPPED) :
    (deliver d s).2._status.dwCurrentState = SERVICE_START_PENDING ∨
      (deliver d s).2._status.dwCurrentState = SERVICE_RUNNING ∨
      (deliver d s).2._status.dwCurrentState = SERVICE_PAUSED ∨
      (deliver d s).2._status.dwCurrentState = SERVICE_STOPPED := by
  cases d with
  | launch registered o =>
      simp only [deliver]
      rw [main_state]
      by_cases hr : registered = 0
      · simpa [hr] using h
      · cases o <;> simp [hr]
  | control code o =>
      simp only [deliver]
      unfold handleControl
      split_ifs
      · rw [stop_state]; cases o
        · simp
        · simpa using h
      · rw [pause_state]; cases o <;> simp
      · rw [resume_state]; cases o <;> simp
      · rw [shutdown_status]; cases o
        · simp [setStatusOn]
        · simpa using h
      · simpa [Exec.exec_pure, Exec.ret] using h

theorem deliveries_settled (ds : List Delivery) (s : BaseService)
    (h : s._status.dwCurrentState = SERVICE_START_PENDING ∨
      s._status.dwCurrentState = SERVICE_RUNNING ∨
      s._status.dwCurrentState = SERVICE_PAUSED ∨
      s._status.dwCurrentState = SERVICE_STOPPED) :
    (deliveries ds s)._status.dwCurrentState = SERVICE_START_PENDING ∨
      (deliveries ds s)._status.dwCurrentState = SERVICE_RUNNING ∨
      (deliveries ds s)._status.dwCurrentState = SERVICE_PAUSED ∨
      (deliveries ds s)._status.dwCurrentState = SERVICE_STOPPED := by
  induction ds generalizing s with
  | nil => exact h
  | cons d ds ih => exact ih _ (deliver_settled d s h)

/-- C2: in every state reached from a freshly constructed host by a sequence
of launches and control codes with any hook outcomes, a `stop()` whose `onStop`
throws (a `DWORD` or anything else) ends with `dwCurrentState` equal to its
value on entry, and that value is not StopPending. -/
theorem stop_fault_restores_state (name : String)
    (canStop canShutdown canPauseContinue : Bool) (checkPoint : Nat) (ds : List Delivery)
    (t : Thrown) :
    (stop (HookOutcome.throws t)
        (deliveries ds (BaseService.new name canStop canShutdown canPauseContinue checkPoint))
      ).2._status.dwCurrentState =
      (deliveries ds (BaseService.new name canStop canShutdown canPauseContinue checkPoint)
        )._status.dwCurrentState ∧
    (stop (HookOutcome.throws t)
        (deliveries ds (BaseService.new name canStop canShutdown canPauseContinue checkPoint))
      ).2._status.dwCurrentState ≠ SERVICE_STOP_PENDING := by
  have hs := deliveries_settled ds (BaseService.new name canStop canShutdown canPauseContinue checkPoint)
    (Or.inl rfl)
  rw [stop_state]
  refine ⟨rfl, ?_⟩
  show (deliveries ds _)._status.dwCurrentState ≠ SERVICE_STOP_PENDING
  rcases hs with h | h | h | h <;> rw [h] <;> decide

/-- C3, as stated, fails: when `onStart` throws the `DWORD` 0, `start()`
records exit code 0. -/
theorem start_fault_zero_exit_code :
    (start (HookOutcome.throws (Thrown.dword 0))
        (BaseService.new "svc" true true false 1)).2._status.dwCurrentState = SERVICE_STOPPED ∧
    (start (HookOutcome.throws (Thrown.dword 0))
        (BaseService.new "svc" true true false 1)).2._status.dwWin32ExitCode = 0 := by
  decide

/-- C3 (amended): for every fault thrown by `onStart`, `start()` leaves
`dwCurrentState` = Stopped; when the fault is a `DWORD`, the exit code recorded
is the value thrown. -/
theorem start_fault_stopped (s : BaseService) (t : Thrown) (error : Nat) :
    (start (HookOutcome.throws t) s).2._status.dwCurrentState = SERVICE_STOPPED ∧
    (start (HookOutcome.throws (Thrown.dword error)) s).2._status.dwWin32ExitCode = error := by
  constructor
  · cases t <;> rfl
  · rfl

/-- C4: for every fault thrown by `onPause`, `pause()` ends in Running; for
every fault thrown by `onResume`, `resume()` ends in Paused; neither final
state is Stopped or one of the four pending states. -/
theorem pause_resume_fault_state (s : BaseService) (t : Thrown) :
    (pause (HookOutcome.throws t) s).2._status.dwCurrentState = SERVICE_RUNNING ∧
    (resume (HookOutcome.throws t) s).2._status.dwCurrentState = SERVICE_PAUSED ∧
    (∀ state ∈ [SERVICE_STOPPED, SERVICE_START_PENDING, SERVICE_STOP_PENDING,
        SERVICE_CONTINUE_PENDING, SERVICE_PAUSE_PENDING],
      (pause (HookOutcome.throws t) s).2._status.dwCurrentState ≠ state ∧
      (resume (HookOutcome.throws t) s).2._status.dwCurrentState ≠ state) := by
  rw [pause_state, resume_state]
  simp

/-! ## The checkpoint counter of `setStatus` -/

theorem reports_setStatusOn (currentState exitCode waitHint : Nat) (s : BaseService) :
    reports (setStatusOn currentState exitCode waitHint s) =
      reports s ++ [(setStatusOn currentState exitCode waitHint s)._status] := by
  simp [reports, setStatusOn, List.filterMap_append]

theorem setStatusOn_state (currentState exitCode waitHint : Nat) (s : BaseService) :
    (setStatusOn currentState exitCode waitHint s)._status.dwCurrentState = currentState := rfl

theorem setStatusOn_checkPoint_field (currentState exitCode waitHint : Nat) (s : BaseService) :
    (setStatusOn currentState exitCode waitHint s)._status.dwCheckPoint =
      if isStable currentState then 0 else s.checkPoint := rfl

theorem setStatusOn_counter (currentState exitCode waitHint : Nat) (s : BaseService) :
    (setStatusOn currentState exitCode waitHint s).checkPoint =
      if isStable currentState then s.checkPoint else (s.checkPoint + 1) % ULONG_RANGE := rfl

theorem isStable_iff (state : Nat) :
    isStable state = true ↔ (state = SERVICE_RUNNING ∨ state = SERVICE_STOPPED) := by
  simp [isStable]

theorem pendingCount_cons (c : StatusCall) (cs : List StatusCall) :
    pendingCount (c :: cs) =
      (if isStable c.currentState then 0 else 1) + pendingCount cs := by
  unfold pendingCount
  by_cases h : isStable c.currentState = true <;> simp [List.filter_cons, h, Nat.add_comm]

/-- While the counter has not wrapped (`u` is its value without the
reduction modulo `2 ^ 32`), the reports keep both checkpoint properties. -/
theorem checkpoint_invariant (cs : List StatusCall) :
    ∀ (s : BaseService) (u : Nat), s.checkPoint = u % ULONG_RANGE → 0 < u →
      u + pendingCount cs ≤ ULONG_RANGE →
      ZeroIffStable (reports s) → PendingIncreasing (reports s) →
      (∀ r ∈ reports s, isStable r.dwCurrentState = false → r.dwCheckPoint < u) →
      ZeroIffStable (reports (setStatusCalls cs s)) ∧
        PendingIncreasing (reports (setStatusCalls cs s)) := by
  induction cs with
  | nil => intro s u _ _ _ hz hp _; exact ⟨hz, hp⟩
  | cons c cs ih =>
      intro s u hc hu hle hz hp hb
      rw [pendingCount_cons] at hle
      show ZeroIffStable (reports (setStatusCalls cs
          (setStatusOn c.currentState c.exitCode c.waitHint s))) ∧
        PendingIncreasing (reports (setStatusCalls cs
          (setStatusOn c.currentState c.exitCode c.waitHint s)))
      by_cases hst : isStable c.currentState = true
      · -- a report of Running or Stopped: checkpoint 0, counter untouched
        refine ih _ u ?_ hu ?_ ?_ ?_ ?_
        · rw [setStatusOn_counter, if_pos hst]; exact hc
        · simpa [hst] using hle
        · intro r hr
          rw [reports_setStatusOn, List.mem_append, List.mem_singleton] at hr
          rcases hr with hr | rfl
          · exact hz r hr
          · rw [setStatusOn_checkPoint_field, setStatusOn_state, if_pos hst]
            simpa using (isStable_iff _).1 hst
        · unfold PendingIncreasing
          rw [reports_setStatusOn, List.pairwise_append]
          refine ⟨hp, List.pairwise_singleton _ _, ?_⟩
          intro a _ b hb2 _ hbs
          rw [List.mem_singleton] at hb2
          subst hb2
          rw [setStatusOn_state, hst] at hbs
          exact absurd hbs (by decide)
        · intro r hr hrs
          rw [reports_setStatusOn, List.mem_append, List.mem_singleton] at hr
          rcases hr with hr | rfl
          · exact hb r hr hrs
          · rw [setStatusOn_state, hst] at hrs
            exact absurd hrs (by decide)
      · -- a pending report: it carries the counter, which has not wrapped
        have hst2 : isStable c.currentState = false := by simpa using hst
        have hle2 : u + (1 + pendingCount cs) ≤ ULONG_RANGE := by simpa [hst2] using hle
        have hlt : u < ULONG_RANGE := by omega
        have hcu : s.checkPoint = u := by rw [hc, Nat.mod_eq_of_lt hlt]
        refine ih _ (u + 1) ?_ (Nat.succ_pos u) ?_ ?_ ?_ ?_
        · rw [setStatusOn_counter, hst2, hcu]; rfl
        · omega
        · intro r hr
          rw [reports_setStatusOn, List.mem_append, List.mem_singleton] at hr
          rcases hr with hr | rfl
          · exact hz r hr
          · rw [setStatusOn_checkPoint_field, setStatusOn_state, hst2, hcu]
            constructor
            · intro h0; simp at h0; omega
            · intro h; exact absurd ((isStable_iff _).2 h) hst
        · unfold PendingIncreasing
          rw [reports_setStatusOn, List.pairwise_append]
          refine ⟨hp, List.pairwise_singleton _ _, ?_⟩
          intro a ha b hb2 has _
          rw [List.mem_singleton] at hb2
          subst hb2
          rw [setStatusOn_checkPoint_field, hst2, hcu]
          simpa using hb a ha has
        · intro r hr hrs
          rw [reports_setStatusOn, List.mem_append, List.mem_singleton] at hr
          rcases hr with hr | rfl
          · exact Nat.lt_succ_of_lt (hb r hr hrs)
          · rw [setStatusOn_checkPoint_field, hst2, hcu]
            simp

theorem setStatusCalls_append (cs : List StatusCall) (c : StatusCall) (s : BaseService) :
    setStatusCalls (cs ++ [c]) s =
      setStatusOn c.currentState c.exitCode c.waitHint (setStatusCalls cs s) := by
  simp [setStatusCalls, List.foldl_append]

/-- The counter after `n` reports of StartPending, wrap-around included. -/
theorem counter_after_pending (n : Nat) :
    ∀ s : BaseService, s.checkPoint < ULONG_RANGE →
      (setStatusCalls (List.replicate n ⟨SERVICE_START_PENDING, 0, 0⟩) s).checkPoint =
        (s.checkPoint + n) % ULONG_RANGE := by
  induction n with
  | zero => intro s h; simp [setStatusCalls, Nat.mod_eq_of_lt h]
  | succ n ih =>
      intro s _
      rw [List.replicate_succ]
      show (setStatusCalls (List.replicate n ⟨SERVICE_START_PENDING, 0, 0⟩)
          (setStatusOn SERVICE_START_PENDING 0 0 s)).checkPoint = _
      have e : (setStatusOn SERVICE_START_PENDING 0 0 s).checkPoint =
          (s.checkPoint + 1) % ULONG_RANGE := rfl
      rw [ih _ (by rw [e]; exact Nat.mod_lt _ (by decide)), e, Nat.add_mod, Nat.mod_mod,
        ← Nat.add_mod]
      congr 1
      ring

/-- The last of `n` reports of StartPending carries the counter as it stands
after the `n - 1` reports before it. -/
theorem last_pending_report (n : Nat) (hn : 0 < n) (s : BaseService)
    (h : s.checkPoint < ULONG_RANGE) :
    ∃ r ∈ reports (setStatusCalls (List.replicate n ⟨SERVICE_START_PENDING, 0, 0⟩) s),
      r.dwCurrentState = SERVICE_START_PENDING ∧
      r.dwCheckPoint = (s.checkPoint + (n - 1)) % ULONG_RANGE := by
  obtain ⟨m, rfl⟩ := Nat.exists_eq_succ_of_ne_zero (Nat.pos_iff_ne_zero.1 hn)
  rw [List.replicate_succ', setStatusCalls_append, reports_setStatusOn]
  refine ⟨_, List.mem_append_right _ (List.mem_singleton_self _), rfl, ?_⟩
  rw [setStatusOn_checkPoint_field, counter_after_pending m s h]
  rfl

/-- C5, as stated, fails: the counter is 32 bits wide, so in a run of `2 ^ 32`
reports of StartPending that starts with the counter at 1 the last one carries
checkpoint 0 although its state is neither Running nor Stopped. -/
theorem checkpoint_zero_on_pending_after_wrap :
    ¬ ZeroIffStable (reports (setStatusCalls
        (List.replicate 4294967296 ⟨SERVICE_START_PENDING, 0, 0⟩)
        (BaseService.new "svc" true true false 1))) := by
  intro hz
  obtain ⟨r, hr, hstate, hcp⟩ := last_pending_report 4294967296 (by decide)
    (BaseService.new "svc" true true false 1) (by decide)
  have h0 : r.dwCheckPoint = 0 := by rw [hcp]; rfl
  have := (hz r hr).1 h0
  rw [hstate] at this
  exact absurd this (by decide)

/-- C5 (amended): the counter of `setStatus` is one per process and is not
reset when a host is constructed. For every sequence of `setStatus` calls that
starts with the counter at a value `checkPoint` with 0 < `checkPoint` < 2 ^ 32
(it is 1 in a process in which no pending state has been reported yet), and in
which `checkPoint` plus the number of calls naming a state other than Running
and Stopped is at most 2 ^ 32 (so the 32-bit counter does not wrap to 0 before
the last of them), the reported checkpoint is 0 if and only if the reported
state is Running or Stopped, and of any two reports whose states are neither
Running nor Stopped the later one has the strictly greater checkpoint. -/
theorem checkpoint_law (name : String) (canStop canShutdown canPauseContinue : Bool)
    (checkPoint : Nat) (cs : List StatusCall) (hpos : 0 < checkPoint)
    (hlt : checkPoint < ULONG_RANGE) (h : checkPoint + pendingCount cs ≤ ULONG_RANGE) :
    ZeroIffStable (reports (setStatusCalls cs
        (BaseService.new name canStop canShutdown canPauseContinue checkPoint))) ∧
    PendingIncreasing (reports (setStatusCalls cs
        (BaseService.new name canStop canShutdown canPauseContinue checkPoint))) := by
  refine checkpoint_invariant cs _ checkPoint ?_ hpos h ?_ ?_ ?_
  · show checkPoint = checkPoint % ULONG_RANGE
    rw [Nat.mod_eq_of_lt hlt]
  · intro r hr; simp [reports, BaseService.new] at hr
  · simp [PendingIncreasing, reports, BaseService.new]
  · intro r hr; simp [reports, BaseService.new] at hr

/-- Witness for `checkpoint_law`: StartPending, Running, StopPending, Stopped,
on the first host of a process (counter 1) and on a later host that finds the
counter at 2. -/
theorem checkpoint_law_witness :
    (ZeroIffStable (reports (setStatusCalls
        [⟨SERVICE_START_PENDING, 0, 0⟩, ⟨SERVICE_RUNNING, 0, 0⟩,
          ⟨SERVICE_STOP_PENDING, 0, 0⟩, ⟨SERVICE_STOPPED, 0, 0⟩]
        (BaseService.new "svc" true true false 1))) ∧
      PendingIncreasing (reports (setStatusCalls
        [⟨SERVICE_START_PENDING, 0, 0⟩, ⟨SERVICE_RUNNING, 0, 0⟩,
          ⟨SERVICE_STOP_PENDING, 0, 0⟩, ⟨SERVICE_STOPPED, 0, 0⟩]
        (BaseService.new "svc" true true false 1)))) ∧
    (ZeroIffStable (reports (setStatusCalls
        [⟨SERVICE_START_PENDING, 0, 0⟩, ⟨SERVICE_RUNNING, 0, 0⟩,
          ⟨SERVICE_STOP_PENDING, 0, 0⟩, ⟨SERVICE_STOPPED, 0, 0⟩]
        (BaseService.new "svc" true true false 2))) ∧
      PendingIncreasing (reports (setStatusCalls
        [⟨SERVICE_START_PENDING, 0, 0⟩, ⟨SERVICE_RUNNING, 0, 0⟩,
          ⟨SERVICE_STOP_PENDING, 0, 0⟩, ⟨SERVICE_STOPPED, 0, 0⟩]
        (BaseService.new "svc" true true false 2)))) :=
  ⟨checkpoint_law "svc" true true false 1 _ (by decide) (by decide) (by decide),
    checkpoint_law "svc" true true false 2 _ (by decide) (by decide) (by decide)⟩

/-! ## The lifecycle host: order of reports and hooks, and what leaves a transition -/

/-- C6, as stated, fails for `start`: with `onStart` returning normally a fresh
host reports StartPending, then Running, and only then calls `onStart`; the
terminal status is reported before the hook is invoked. -/
theorem start_reports_running_before_hook :
    newSteps (BaseService.new "svc" true true false 1)
        (start HookOutcome.returns (BaseService.new "svc" true true false 1)).2 =
      [Step.reported SERVICE_START_PENDING, Step.reported SERVICE_RUNNING,
        Step.invoked Hook.onStart] ∧
    newSteps (BaseService.new "svc" true true false 1)
        (start HookOutcome.returns (BaseService.new "svc" true true false 1)).2 ≠
      [Step.reported SERVICE_START_PENDING, Step.invoked Hook.onStart,
        Step.reported SERVICE_RUNNING] := by
  decide

/-- C6 (amended): with a hook that returns normally, `stop`, `pause` and
`resume` make exactly the steps: report the pending status (StopPending,
PausePending, ContinuePending), call the hook (`onStop`, `onPause`,
`onResume`), report the terminal status (Stopped, Paused, Running); `start`
makes exactly the steps: report StartPending, report Running, call
`onStart`. -/
theorem transition_steps (s : BaseService) :
    newSteps s (stop HookOutcome.returns s).2 =
      [Step.reported SERVICE_STOP_PENDING, Step.invoked Hook.onStop,
        Step.reported SERVICE_STOPPED] ∧
    newSteps s (pause HookOutcome.returns s).2 =
      [Step.reported SERVICE_PAUSE_PENDING, Step.invoked Hook.onPause,
        Step.reported SERVICE_PAUSED] ∧
    newSteps s (resume HookOutcome.returns s).2 =
      [Step.reported SERVICE_CONTINUE_PENDING, Step.invoked Hook.onResume,
        Step.reported SERVICE_RUNNING] ∧
    newSteps s (start HookOutcome.returns s).2 =
      [Step.reported SERVICE_START_PENDING, Step.reported SERVICE_RUNNING,
        Step.invoked Hook.onStart] :=
  ⟨newSteps_of_trace _ _ _ (trace_stop HookOutcome.returns s),
    newSteps_of_trace _ _ _ (trace_pause HookOutcome.returns s),
    newSteps_of_trace _ _ _ (trace_resume HookOutcome.returns s),
    newSteps_of_trace _ _ _ (trace_start HookOutcome.returns s)⟩

theorem start_exit (o : HookOutcome) (s : BaseService) :
    (start o s).1 =
      match o with
      | HookOutcome.returns => Except.ok ()
      | HookOutcome.throws (Thrown.dword _) =>
          Except.error (Thrown.exception "Service start error")
      | HookOutcome.throws _ => Except.error (Thrown.exception "Service failed to start") := by
  cases o with
  | returns => rfl
  | throws t => cases t <;> rfl

theorem main_registered (registered : Nat) (o : HookOutcome) (s : BaseService)
    (h : registered ≠ 0) :
    main registered o s = start o { s with _statusHandle := registered } := by
  simp [main, h, Exec.exec_bind, Exec.seq, Exec.read, Exec.write]

/-- C8, as stated, fails: a Running host whose `onShutdown` throws is still
Running after the Shutdown control code. -/
theorem shutdown_fault_stays_running :
    (deliveries [Delivery.launch 1 HookOutcome.returns]
        (BaseService.new "svc" true true false 1))._status.dwCurrentState = SERVICE_RUNNING ∧
    (handleControl SERVICE_CONTROL_SHUTDOWN (HookOutcome.throws Thrown.other)
        (deliveries [Delivery.launch 1 HookOutcome.returns]
          (BaseService.new "svc" true true false 1))).2._status.dwCurrentState =
      SERVICE_RUNNING := by
  decide

/-- C8 (amended): for a host that is Running or Paused, the Shutdown control
code ends in Stopped when `onShutdown` returns normally; when `onShutdown`
throws, the fault is swallowed, nothing is reported and the status record is
what it was, so the host is still Running or Paused. -/
theorem shutdown_control (s : BaseService) (t : Thrown)
    (h : s._status.dwCurrentState = SERVICE_RUNNING ∨
      s._status.dwCurrentState = SERVICE_PAUSED) :
    (handleControl SERVICE_CONTROL_SHUTDOWN HookOutcome.returns s).2._status.dwCurrentState =
      SERVICE_STOPPED ∧
    (handleControl SERVICE_CONTROL_SHUTDOWN (HookOutcome.throws t) s).1 = Except.ok () ∧
    (handleControl SERVICE_CONTROL_SHUTDOWN (HookOutcome.throws t) s).2._status = s._status ∧
    newSteps s (handleControl SERVICE_CONTROL_SHUTDOWN (HookOutcome.throws t) s).2 =
      [Step.invoked Hook.onShutdown] ∧
    ((handleControl SERVICE_CONTROL_SHUTDOWN (HookOutcome.throws t) s).2._status.dwCurrentState =
        SERVICE_RUNNING ∨
      (handleControl SERVICE_CONTROL_SHUTDOWN (HookOutcome.throws t) s).2._status.dwCurrentState =
        SERVICE_PAUSED) := by
  rw [handleControl_shutdown, handleControl_shutdown]
  have hstatus : (shutdown (HookOutcome.throws t) s).2._status = s._status :=
    shutdown_status (HookOutcome.throws t) s
  refine ⟨rfl, ?_, hstatus, newSteps_of_trace _ _ _ (trace_shutdown (HookOutcome.throws t) s), ?_⟩
  · cases t <;> rfl
  · rw [hstatus]; exact h

/-- Witness for `shutdown_control`: a launched host, `onShutdown` throwing. -/
theorem shutdown_control_witness :
    (handleControl SERVICE_CONTROL_SHUTDOWN HookOutcome.returns
        (deliveries [Delivery.launch 1 HookOutcome.returns]
          (BaseService.new "svc" true true false 1))).2._status.dwCurrentState =
      SERVICE_STOPPED ∧
    (handleControl SERVICE_CONTROL_SHUTDOWN (HookOutcome.throws Thrown.other)
        (deliveries [Delivery.launch 1 HookOutcome.returns]
          (BaseService.new "svc" true true false 1))).2._status =
      (deliveries [Delivery.launch 1 HookOutcome.returns]
        (BaseService.new "svc" true true false 1))._status :=
  ⟨(shutdown_control _ Thrown.other (Or.inl (by decide))).1,
    (shutdown_control _ Thrown.other (Or.inl (by decide))).2.2.1⟩

open ServiceManager

/-! ## The service manager: the poll loop of `serviceStop` -/

theorem pollLoop_succ (w : Scm) (h fuel state : Nat) (r : Run) :
    pollLoop w h (fuel + 1) state r =
      match w.queryServiceStatus r.queries with
      | none =>
          (Ending.returned state,
            { r with calls := r.calls ++ [Call.QueryServiceStatus h], queries := r.queries + 1 })
      | some queried =>
          if queried = SERVICE_STOP_PENDING then
            pollLoop w h fuel queried
              { r with
                calls := r.calls ++ [Call.QueryServiceStatus h] ++ [Call.Sleep STATE_CHANGE_WAIT]
                queries := r.queries + 1 }
          else
            (Ending.returned queried,
              { r with calls := r.calls ++ [Call.QueryServiceStatus h], queries := r.queries + 1 }) := by
  cases hq : w.queryServiceStatus r.queries with
  | none => simp [pollLoop, Op.op_bind, Op.seq, Op.read, Op.call, Op.write, hq, Op.op_pure, Op.ret]
  | some q =>
      by_cases hp : q = SERVICE_STOP_PENDING
      · simp [pollLoop, Op.op_bind, Op.seq, Op.read, Op.call, Op.write, hq, hp]
      · simp [pollLoop, Op.op_bind, Op.seq, Op.read, Op.call, Op.write, hq, hp, Op.op_pure, Op.ret]

/-- The poll loop only queries and sleeps, and leaves the handle locals
alone. -/
theorem pollLoop_frame (w : Scm) (h : Nat) (fuel : Nat) :
    ∀ (state : Nat) (r : Run), ∃ cs k,
      (pollLoop w h fuel state r).2 =
          { r with calls := r.calls ++ cs, queries := r.queries + k } ∧
        ∀ c ∈ cs, c = Call.QueryServiceStatus h ∨ c = Call.Sleep STATE_CHANGE_WAIT := by
  induction fuel with
  | zero => intro state r; exact ⟨[], 0, by simp [pollLoop], by simp⟩
  | succ fuel ih =>
      intro state r
      rw [pollLoop_succ]
      cases hq : w.queryServiceStatus r.queries with
      | none => exact ⟨[Call.QueryServiceStatus h], 1, rfl, by simp⟩
      | some q =>
          by_cases hp : q = SERVICE_STOP_PENDING
          · obtain ⟨cs, k, he, hcs⟩ := ih q
              { r with
                calls := r.calls ++ [Call.QueryServiceStatus h] ++ [Call.Sleep STATE_CHANGE_WAIT]
                queries := r.queries + 1 }
            refine ⟨Call.QueryServiceStatus h :: Call.Sleep STATE_CHANGE_WAIT :: cs, 1 + k, ?_, ?_⟩
            · simp only [hp, if_true] at he ⊢
              rw [he]
              simp [Nat.add_assoc]
            · intro c hc
              simp only [List.mem_cons] at hc
              rcases hc with hc | hc | hc
              · exact Or.inl hc
              · exact Or.inr hc
              · exact hcs c hc
          · exact ⟨[Call.QueryServiceStatus h], 1, by simp [hp], by simp⟩

/-- While every query looked at reports StopPending the loop is still
running. -/
theorem pollLoop_polling (w : Scm) (h : Nat) (fuel : Nat) :
    ∀ (state : Nat) (r : Run),
      (∀ i, i < fuel → w.queryServiceStatus (r.queries + i) = some SERVICE_STOP_PENDING) →
      (pollLoop w h fuel state r).1 = Ending.polling := by
  induction fuel with
  | zero => intro state r _; rfl
  | succ fuel ih =>
      intro state r hall
      rw [pollLoop_succ]
      have h0 := hall 0 (Nat.succ_pos _)
      rw [Nat.add_zero] at h0
      rw [h0]
      simp only [if_true]
      apply ih
      intro i hi
      have := hall (i + 1) (Nat.succ_lt_succ hi)
      simpa [Nat.add_assoc, Nat.add_comm 1 i] using this

/-- When query `n` (counted from the loop's first) is the first that fails or
reports another state, and the loop is looked at for more than `n`
iterations, the loop is left with the state last stored. -/
theorem pollLoop_returned (w : Scm) (h : Nat) (fuel : Nat) :
    ∀ (state : Nat) (r : Run) (n : Nat), n < fuel →
      (∀ i, i < n → w.queryServiceStatus (r.queries + i) = some SERVICE_STOP_PENDING) →
      w.queryServiceStatus (r.queries + n) ≠ some SERVICE_STOP_PENDING →
      (pollLoop w h fuel state r).1 =
        Ending.returned
          (match w.queryServiceStatus (r.queries + n) with
            | some queried => queried
            | none => if n = 0 then state else SERVICE_STOP_PENDING) := by
  induction fuel with
  | zero => intro state r n hn; exact absurd hn (Nat.not_lt_zero _)
  | succ fuel ih =>
      intro state r n hn hbefore hend
      rw [pollLoop_succ]
      cases n with
      | zero =>
          rw [Nat.add_zero] at hend ⊢
          cases hq : w.queryServiceStatus r.queries with
          | none => simp [hq]
          | some q =>
              have hp : q ≠ SERVICE_STOP_PENDING := by
                intro hp; rw [hq, hp] at hend; exact hend rfl
              simp [hp, hq]
      | succ n =>
          have h0 := hbefore 0 (Nat.succ_pos _)
          rw [Nat.add_zero] at h0
          rw [h0]
          simp only [if_true]
          have hidx : ∀ i, r.queries + 1 + i = r.queries + (i + 1) := by intro i; omega
          rw [ih SERVICE_STOP_PENDING _ n (Nat.lt_of_succ_lt_succ hn)
            (by intro i hi; simp only [hidx]; exact hbefore (i + 1) (Nat.succ_lt_succ hi))
            (by simp only [hidx]; exact hend)]
          simp only [hidx]
          cases w.queryServiceStatus (r.queries + (n + 1)) <;> simp

/-- Within any number of iterations, either every query reports StopPending or
the loop ends at some query. -/
theorem poll_cases (w : Scm) (fuel : Nat) :
    (∀ i, i < fuel → w.queryServiceStatus i = some SERVICE_STOP_PENDING) ∨
      ∃ n, n < fuel ∧ pollEndsAt w n := by
  induction fuel with
  | zero => exact Or.inl (fun i hi => absurd hi (Nat.not_lt_zero _))
  | succ fuel ih =>
      rcases ih with hall | ⟨n, hn, hend⟩
      · by_cases hq : w.queryServiceStatus fuel = some SERVICE_STOP_PENDING
        · left
          intro i hi
          rcases Nat.lt_succ_iff_lt_or_eq.1 hi with hlt | rfl
          · exact hall i hlt
          · exact hq
        · exact Or.inr ⟨fuel, Nat.lt_succ_self _, hall, hq⟩
      · exact Or.inr ⟨n, Nat.lt_succ_of_lt hn, hend⟩

/-- The loop ends at one query only. -/
theorem pollEndsAt_unique (w : Scm) (n m : Nat) (hn : pollEndsAt w n) (hm : pollEndsAt w m) :
    n = m := by
  rcases Nat.lt_trichotomy n m with h | h | h
  · exact absurd (hm.1 n h) hn.2
  · exact h
  · exact absurd (hn.1 m h) hm.2


/-! ## The service manager: `serviceStop` -/

theorem serviceStop_eq (w : Scm) (fuel h : Nat) (r : Run) :
    serviceStop w fuel h r =
      if w.controlService = false ∧ w.controlLastError ≠ ERROR_SERVICE_NOT_ACTIVE then
        (Ending.raised (Thrown.exception "ControlService failed"),
          { r with calls := r.calls ++ [Call.ControlService h SERVICE_CONTROL_STOP] })
      else
        match pollLoop w h fuel (match w.controlStatus with
            | some written => written
            | none => 0)
          { r with calls := r.calls ++ [Call.ControlService h SERVICE_CONTROL_STOP] } with
        | (Ending.returned last, r1) =>
            if last ≠ SERVICE_STOPPED then
              (Ending.raised (Thrown.exception "Service state is not SERVICE_STOPPED"), r1)
            else (Ending.returned (), r1)
        | (Ending.raised t, r1) => (Ending.raised t, r1)
        | (Ending.polling, r1) => (Ending.polling, r1) := by
  by_cases hc : w.controlService = false ∧ w.controlLastError ≠ ERROR_SERVICE_NOT_ACTIVE
  · simp [serviceStop, Op.op_bind, Op.seq, Op.call, Op.raise, hc]
  · simp only [serviceStop, Op.op_bind, Op.seq, Op.call, Op.raise, hc, if_false, Op.op_pure,
      Op.ret]
    split
    · rename_i last r1 hres
      rw [hres]
      by_cases hl : last = SERVICE_STOPPED <;> simp [hl, Op.ret, Op.raise]
    · rename_i t r1 hres
      rw [hres]
    · rename_i r1 hres
      rw [hres]

theorem stopAccepted_iff (w : Scm) :
    stopAccepted w ↔
      ¬ (w.controlService = false ∧ w.controlLastError ≠ ERROR_SERVICE_NOT_ACTIVE) := by
  unfold stopAccepted
  cases w.controlService <;> simp

/-- What `serviceStop` does on a run that has made no status query yet. -/
theorem serviceStop_cases (w : Scm) (fuel h : Nat) (r : Run) (hq : r.queries = 0) :
    ∃ cs k, (∀ c ∈ cs, c = Call.QueryServiceStatus h ∨ c = Call.Sleep STATE_CHANGE_WAIT) ∧
      ((¬ stopAccepted w ∧
          serviceStop w fuel h r =
            (Ending.raised (Thrown.exception "ControlService failed"),
              { r with
                calls := r.calls ++ Call.ControlService h SERVICE_CONTROL_STOP :: cs
                queries := k })) ∨
        (stopAccepted w ∧
          (∀ i, i < fuel → w.queryServiceStatus i = some SERVICE_STOP_PENDING) ∧
          serviceStop w fuel h r =
            (Ending.polling,
              { r with
                calls := r.calls ++ Call.ControlService h SERVICE_CONTROL_STOP :: cs
                queries := k })) ∨
        (stopAccepted w ∧
          (∃ n, n < fuel ∧ pollEndsAt w n ∧ lastObserved w n = SERVICE_STOPPED) ∧
          serviceStop w fuel h r =
            (Ending.returned (),
              { r with
                calls := r.calls ++ Call.ControlService h SERVICE_CONTROL_STOP :: cs
                queries := k })) ∨
        (stopAccepted w ∧
          (∃ n, n < fuel ∧ pollEndsAt w n ∧ lastObserved w n ≠ SERVICE_STOPPED) ∧
          serviceStop w fuel h r =
            (Ending.raised (Thrown.exception "Service state is not SERVICE_STOPPED"),
              { r with
                calls := r.calls ++ Call.ControlService h SERVICE_CONTROL_STOP :: cs
                queries := k }))) := by
  by_cases hacc : stopAccepted w
  · have hne := (stopAccepted_iff w).1 hacc
    have hframe := pollLoop_frame w h fuel
      (match w.controlStatus with
        | some written => written
        | none => 0)
      { r with calls := r.calls ++ [Call.ControlService h SERVICE_CONTROL_STOP] }
    have hpoll := pollLoop_polling w h fuel
      (match w.controlStatus with
        | some written => written
        | none => 0)
      { r with calls := r.calls ++ [Call.ControlService h SERVICE_CONTROL_STOP] }
    have hret := pollLoop_returned w h fuel
      (match w.controlStatus with
        | some written => written
        | none => 0)
      { r with calls := r.calls ++ [Call.ControlService h SERVICE_CONTROL_STOP] }
    have hstop := serviceStop_eq w fuel h r
    rw [if_neg hne] at hstop
    generalize pollLoop w h fuel _ _ = res at hframe hpoll hret hstop
    obtain ⟨e, r1⟩ := res
    obtain ⟨cs, k, hr1, hcs⟩ := hframe
    simp only [hq, Nat.zero_add] at hr1 hpoll hret
    subst hr1
    refine ⟨cs, k, hcs, Or.inr ?_⟩
    rcases poll_cases w fuel with hall | ⟨n, hn, hend⟩
    · left
      refine ⟨hacc, hall, ?_⟩
      have he : e = Ending.polling := hpoll hall
      subst he
      rw [hstop]
      simp
    · right
      have he := hret n hn hend.1 hend.2
      have hlast : (match w.queryServiceStatus n with
          | some queried => queried
          | none => if n = 0 then
              (match w.controlStatus with
                | some written => written
                | none => 0)
            else SERVICE_STOP_PENDING) = lastObserved w n := rfl
      rw [hlast] at he
      subst he
      by_cases hstopped : lastObserved w n = SERVICE_STOPPED
      · left
        refine ⟨hacc, ⟨n, hn, hend, hstopped⟩, ?_⟩
        rw [hstop]
        simp [hstopped]
      · right
        refine ⟨hacc, ⟨n, hn, hend, hstopped⟩, ?_⟩
        rw [hstop]
        simp [hstopped]
  · refine ⟨[], r.queries, by simp, Or.inl ⟨hacc, ?_⟩⟩
    have hne : w.controlService = false ∧ w.controlLastError ≠ ERROR_SERVICE_NOT_ACTIVE := by
      by_contra hcon
      exact hacc ((stopAccepted_iff w).2 hcon)
    rw [serviceStop_eq, if_pos hne]


/-! ## The service manager: every path through `controlService` and `installService` -/

theorem controlService_no_manager (w : Scm) (fuel : Nat) (name : String) (action : Action)
    (sa ma : Nat) (hm : w.openSCManager = 0) :
    controlService w fuel name action sa ma Run.init =
      (Ending.raised (Thrown.exception "OpenSCManager failed"),
        { calls := [Call.OpenSCManager ma 0, Call.cout "OpenSCManager failed"]
          queries := 0, services_manager := 0, service_handle := 0 }) := by
  simp [controlService, Op.op_bind, Op.seq, Op.read, Op.call, Op.write, Op.op_pure, Op.ret,
    serviceOpenManager, hm, Op.tryCatchException, Op.raise, serviceCleanupHandles,
    serviceCleanupHandle, Run.init]

theorem controlService_no_service (w : Scm) (fuel : Nat) (name : String) (action : Action)
    (sa ma : Nat) (hm : w.openSCManager ≠ 0) (hs : w.openService = 0) :
    controlService w fuel name action sa ma Run.init =
      (Ending.raised (Thrown.exception "OpenService failed"),
        { calls := [Call.OpenSCManager ma w.openSCManager,
            Call.OpenService w.openSCManager name sa 0, Call.cout "OpenService failed",
            Call.CloseServiceHandle w.openSCManager]
          queries := 0, services_manager := w.openSCManager, service_handle := 0 }) := by
  simp [controlService, Op.op_bind, Op.seq, Op.read, Op.call, Op.write, Op.op_pure, Op.ret,
    serviceOpenManager, serviceOpen, hm, hs, Op.tryCatchException, Op.raise,
    serviceCleanupHandles, serviceCleanupHandle, Run.init]

theorem controlService_start (w : Scm) (fuel : Nat) (name : String) (sa ma : Nat)
    (hm : w.openSCManager ≠ 0) (hs : w.openService ≠ 0) :
    controlService w fuel name Action.START sa ma Run.init =
      if w.startService = false then
        (Ending.raised (Thrown.exception "StartService failed"),
          { calls := [Call.OpenSCManager ma w.openSCManager,
              Call.OpenService w.openSCManager name sa w.openService,
              Call.StartService w.openService, Call.cout "StartService failed",
              Call.CloseServiceHandle w.openService, Call.CloseServiceHandle w.openSCManager]
            queries := 0, services_manager := w.openSCManager, service_handle := w.openService })
      else
        (Ending.returned (),
          { calls := [Call.OpenSCManager ma w.openSCManager,
              Call.OpenService w.openSCManager name sa w.openService,
              Call.StartService w.openService,
              Call.CloseServiceHandle w.openService, Call.CloseServiceHandle w.openSCManager]
            queries := 0, services_manager := w.openSCManager, service_handle := w.openService }) := by
  by_cases hst : w.startService = false <;>
  simp [controlService, Op.op_bind, Op.seq, Op.read, Op.call, Op.write, Op.op_pure, Op.ret,
    serviceOpenManager, serviceOpen, serviceStart, hm, hs, hst, Op.tryCatchException, Op.raise,
    serviceCleanupHandles, serviceCleanupHandle, Run.init]

/-- Result of `controlService` for `STOP`, given how `serviceStop` ends on the opened
handles. -/
theorem controlService_stop (w : Scm) (fuel : Nat) (name : String) (sa ma : Nat)
    (hm : w.openSCManager ≠ 0) (hs : w.openService ≠ 0) (e : Ending Unit) (cs : List Call)
    (k : Nat)
    (heq : serviceStop w fuel w.openService
        { calls := [Call.OpenSCManager ma w.openSCManager,
            Call.OpenService w.openSCManager name sa w.openService]
          queries := 0, services_manager := w.openSCManager, service_handle := w.openService } =
      (e, { calls := cs, queries := k, services_manager := w.openSCManager,
            service_handle := w.openService })) :
    controlService w fuel name Action.STOP sa ma Run.init =
      match e with
      | Ending.returned _ =>
          (Ending.returned (),
            { calls := cs ++ [Call.CloseServiceHandle w.openService,
                Call.CloseServiceHandle w.openSCManager]
              queries := k, services_manager := w.openSCManager,
              service_handle := w.openService })
      | Ending.raised (Thrown.exception what) =>
          (Ending.raised (Thrown.exception what),
            { calls := cs ++ [Call.cout what, Call.CloseServiceHandle w.openService,
                Call.CloseServiceHandle w.openSCManager]
              queries := k, services_manager := w.openSCManager,
              service_handle := w.openService })
      | other =>
          (other, { calls := cs, queries := k, services_manager := w.openSCManager,
                    service_handle := w.openService }) := by
  cases e with
  | returned u =>
      simp [controlService, Op.op_bind, Op.seq, Op.read, Op.call, Op.write, Op.op_pure, Op.ret,
        serviceOpenManager, serviceOpen, hm, hs, heq, Op.tryCatchException, Op.raise,
        serviceCleanupHandles, serviceCleanupHandle, Run.init]
  | raised t =>
      cases t <;>
      simp [controlService, Op.op_bind, Op.seq, Op.read, Op.call, Op.write, Op.op_pure, Op.ret,
        serviceOpenManager, serviceOpen, hm, hs, heq, Op.tryCatchException, Op.raise,
        serviceCleanupHandles, serviceCleanupHandle, Run.init]
  | polling =>
      simp [controlService, Op.op_bind, Op.seq, Op.read, Op.call, Op.write, Op.op_pure, Op.ret,
        serviceOpenManager, serviceOpen, hm, hs, heq, Op.tryCatchException, Op.raise,
        serviceCleanupHandles, serviceCleanupHandle, Run.init]

/-- Result of `controlService` for `UNINSTALL`, given how `serviceStop` ends on the
opened handles. -/
theorem controlService_uninstall (w : Scm) (fuel : Nat) (name : String) (sa ma : Nat)
    (hm : w.openSCManager ≠ 0) (hs : w.openService ≠ 0) (e : Ending Unit) (cs : List Call)
    (k : Nat)
    (heq : serviceStop w fuel w.openService
        { calls := [Call.OpenSCManager ma w.openSCManager,
            Call.OpenService w.openSCManager name sa w.openService]
          queries := 0, services_manager := w.openSCManager, service_handle := w.openService } =
      (e, { calls := cs, queries := k, services_manager := w.openSCManager,
            service_handle := w.openService })) :
    controlService w fuel name Action.UNINSTALL sa ma Run.init =
      match e with
      | Ending.returned _ =>
          if w.deleteService = false then
            (Ending.raised (Thrown.exception "DeleteService failed"),
              { calls := cs ++ [Call.DeleteService w.openService,
                  Call.cout "DeleteService failed", Call.CloseServiceHandle w.openService,
                  Call.CloseServiceHandle w.openSCManager]
                queries := k, services_manager := w.openSCManager,
                service_handle := w.openService })
          else
            (Ending.returned (),
              { calls := cs ++ [Call.DeleteService w.openService,
                  Call.CloseServiceHandle w.openService,
                  Call.CloseServiceHandle w.openSCManager]
                queries := k, services_manager := w.openSCManager,
                service_handle := w.openService })
      | Ending.raised (Thrown.exception what) =>
          (Ending.raised (Thrown.exception what),
            { calls := cs ++ [Call.cout what, Call.CloseServiceHandle w.openService,
                Call.CloseServiceHandle w.openSCManager]
              queries := k, services_manager := w.openSCManager,
              service_handle := w.openService })
      | other =>
          (other, { calls := cs, queries := k, services_manager := w.openSCManager,
                    service_handle := w.openService }) := by
  cases e with
  | returned u =>
      by_cases hd : w.deleteService = false <;>
      simp [controlService, Op.op_bind, Op.seq, Op.read, Op.call, Op.write, Op.op_pure, Op.ret,
        serviceOpenManager, serviceOpen, serviceDelete, hm, hs, hd, heq, Op.tryCatchException,
        Op.raise, serviceCleanupHandles, serviceCleanupHandle, Run.init]
  | raised t =>
      cases t <;>
      simp [controlService, Op.op_bind, Op.seq, Op.read, Op.call, Op.write, Op.op_pure, Op.ret,
        serviceOpenManager, serviceOpen, hm, hs, heq, Op.tryCatchException, Op.raise,
        serviceCleanupHandles, serviceCleanupHandle, Run.init]
  | polling =>
      simp [controlService, Op.op_bind, Op.seq, Op.read, Op.call, Op.write, Op.op_pure, Op.ret,
        serviceOpenManager, serviceOpen, hm, hs, heq, Op.tryCatchException, Op.raise,
        serviceCleanupHandles, serviceCleanupHandle, Run.init]

/-- The four paths through `installService`. -/
theorem installService_eq (w : Scm) (name : String) :
    installService w name Run.init =
      if w.openSCManager = 0 then
        (Ending.raised (Thrown.exception "OpenSCManager failed"),
          { calls := [Call.OpenSCManager (SC_MANAGER_CONNECT ||| SC_MANAGER_CREATE_SERVICE) 0]
            queries := 0, services_manager := 0, service_handle := 0 })
      else if w.createService = 0 then
        (Ending.raised (Thrown.exception "CreateService failed"),
          { calls := [Call.OpenSCManager (SC_MANAGER_CONNECT ||| SC_MANAGER_CREATE_SERVICE) w.openSCManager,
              Call.CreateService w.openSCManager name SERVICE_CHANGE_CONFIG 0,
              Call.CloseServiceHandle w.openSCManager]
            queries := 0, services_manager := w.openSCManager, service_handle := 0 })
      else if w.changeServiceConfig2 = false then
        (Ending.raised (Thrown.exception "ChangeServiceConfig2 failed"),
          { calls := [Call.OpenSCManager (SC_MANAGER_CONNECT ||| SC_MANAGER_CREATE_SERVICE) w.openSCManager,
              Call.CreateService w.openSCManager name SERVICE_CHANGE_CONFIG w.createService,
              Call.ChangeServiceConfig2 w.createService,
              Call.CloseServiceHandle w.createService,
              Call.CloseServiceHandle w.openSCManager]
            queries := 0, services_manager := w.openSCManager,
            service_handle := w.createService })
      else
        (Ending.returned (),
          { calls := [Call.OpenSCManager (SC_MANAGER_CONNECT ||| SC_MANAGER_CREATE_SERVICE) w.openSCManager,
              Call.CreateService w.openSCManager name SERVICE_CHANGE_CONFIG w.createService,
              Call.ChangeServiceConfig2 w.createService,
              Call.CloseServiceHandle w.createService,
              Call.CloseServiceHandle w.openSCManager]
            queries := 0, services_manager := w.openSCManager,
            service_handle := w.createService }) := by
  by_cases hm : w.openSCManager = 0
  · simp [installService, Op.op_bind, Op.seq, Op.read, Op.call, Op.write, Op.op_pure, Op.ret,
      serviceOpenManager, hm, Op.tryCatchException, Op.raise, serviceCleanupHandles,
      serviceCleanupHandle, Run.init]
  · by_cases hc : w.createService = 0
    · simp [installService, Op.op_bind, Op.seq, Op.read, Op.call, Op.write, Op.op_pure, Op.ret,
        serviceOpenManager, serviceCreate, hm, hc, Op.tryCatchException, Op.raise,
        serviceCleanupHandles, serviceCleanupHandle, Run.init]
    · by_cases hd : w.changeServiceConfig2 = false <;>
      simp [installService, Op.op_bind, Op.seq, Op.read, Op.call, Op.write, Op.op_pure, Op.ret,
        serviceOpenManager, serviceCreate, serviceSetDescription, hm, hc, hd,
        Op.tryCatchException, Op.raise, serviceCleanupHandles, serviceCleanupHandle, Run.init]


/-! ## The service manager: handles and deletion -/

theorem closed_append (xs ys : List Call) : closed (xs ++ ys) = closed xs ++ closed ys := by
  simp [closed, List.filterMap_append]

theorem obtained_append (xs ys : List Call) :
    obtained (xs ++ ys) = obtained xs ++ obtained ys := by
  simp [obtained, List.filterMap_append]

theorem deleteIssued_append (xs ys : List Call) :
    deleteIssued (xs ++ ys) = (deleteIssued xs || deleteIssued ys) := by
  simp [deleteIssued, List.any_append]

theorem poll_calls_inert (h : Nat) (cs : List Call)
    (hcs : ∀ c ∈ cs, c = Call.QueryServiceStatus h ∨ c = Call.Sleep STATE_CHANGE_WAIT) :
    closed cs = [] ∧ obtained cs = [] ∧ deleteIssued cs = false := by
  induction cs with
  | nil => exact ⟨rfl, rfl, rfl⟩
  | cons c cs ih =>
      obtain ⟨h1, h2, h3⟩ := ih (fun x hx => hcs x (List.mem_cons_of_mem _ hx))
      rcases hcs c (List.mem_cons_self _ _) with rfl | rfl
      · refine ⟨?_, ?_, ?_⟩
        · simpa [closed] using h1
        · simpa [obtained] using h2
        · simpa [deleteIssued] using h3
      · refine ⟨?_, ?_, ?_⟩
        · simpa [closed] using h1
        · simpa [obtained] using h2
        · simpa [deleteIssued] using h3

/-- Handles of a `controlService` run with action `STOP` or `UNINSTALL`. -/
theorem controlService_stop_handles (w : Scm) (fuel : Nat) (name : String) (sa ma : Nat)
    (action : Action) (ha : action = Action.STOP ∨ action = Action.UNINSTALL) :
    ((controlService w fuel name action sa ma Run.init).1 ≠ Ending.polling →
      (closed (controlService w fuel name action sa ma Run.init).2.calls).Perm
        (obtained (controlService w fuel name action sa ma Run.init).2.calls)) ∧
    ((∃ n, n < fuel ∧ pollEndsAt w n) →
      (controlService w fuel name action sa ma Run.init).1 ≠ Ending.polling) := by
  by_cases hm : w.openSCManager = 0
  · rw [controlService_no_manager w fuel name action sa ma hm]
    simp [closed, obtained]
  by_cases hs : w.openService = 0
  · rw [controlService_no_service w fuel name action sa ma hm hs]
    simp [closed, obtained, hm]
  obtain ⟨cs, k, hcs, hcase⟩ := serviceStop_cases w fuel w.openService
    { calls := [Call.OpenSCManager ma w.openSCManager,
        Call.OpenService w.openSCManager name sa w.openService]
      queries := 0, services_manager := w.openSCManager, service_handle := w.openService } rfl
  obtain ⟨hc1, hc2, _⟩ := poll_calls_inert _ cs hcs
  unfold closed at hc1
  unfold obtained at hc2
  have hperm : ([w.openService, w.openSCManager] : List Nat).Perm
      [w.openSCManager, w.openService] := List.Perm.swap _ _ _
  rcases hcase with ⟨_, heq⟩ | ⟨_, hall, heq⟩ | ⟨_, _, heq⟩ | ⟨_, _, heq⟩
  · rcases ha with rfl | rfl
    · rw [controlService_stop w fuel name sa ma hm hs _ _ _ heq]
      simpa [hc1, hc2, closed, obtained, hm, hs] using hperm
    · rw [controlService_uninstall w fuel name sa ma hm hs _ _ _ heq]
      simpa [hc1, hc2, closed, obtained, hm, hs] using hperm
  · have hno : ¬ ∃ n, n < fuel ∧ pollEndsAt w n := by
      rintro ⟨n, hn, hend⟩
      exact hend.2 (hall n hn)
    rcases ha with rfl | rfl
    · rw [controlService_stop w fuel name sa ma hm hs _ _ _ heq]
      simp [hno]
    · rw [controlService_uninstall w fuel name sa ma hm hs _ _ _ heq]
      simp [hno]
  · rcases ha with rfl | rfl
    · rw [controlService_stop w fuel name sa ma hm hs _ _ _ heq]
      simpa [hc1, hc2, closed, obtained, hm, hs] using hperm
    · rw [controlService_uninstall w fuel name sa ma hm hs _ _ _ heq]
      by_cases hd : w.deleteService = false
      · simpa [hc1, hc2, closed, obtained, hm, hs, hd]
          using hperm
      · simpa [hc1, hc2, closed, obtained, hm, hs, hd]
          using hperm
  · rcases ha with rfl | rfl
    · rw [controlService_stop w fuel name sa ma hm hs _ _ _ heq]
      simpa [hc1, hc2, closed, obtained, hm, hs] using hperm
    · rw [controlService_uninstall w fuel name sa ma hm hs _ _ _ heq]
      simpa [hc1, hc2, closed, obtained, hm, hs] using hperm

/-- C9: `installService` and `startService` always come to an end, and
`stopService` and `uninstallService` do so as soon as a status query fails or
reports a state other than StopPending; whenever one of the four operations has
returned or thrown, for every combination of outcomes of the platform calls,
the handles it passed to `CloseServiceHandle` are, counted with multiplicity,
exactly the non-`NULL` handles it got from `OpenSCManager`, `OpenService` and
`CreateService`: each handle obtained is closed once, nothing else is
closed. -/
theorem handles_closed_exactly_once (w : Scm) (fuel : Nat) (name : String) :
    ((installService w name Run.init).1 ≠ Ending.polling ∧
      (closed (installService w name Run.init).2.calls).Perm
        (obtained (installService w name Run.init).2.calls)) ∧
    ((startService w fuel name Run.init).1 ≠ Ending.polling ∧
      (closed (startService w fuel name Run.init).2.calls).Perm
        (obtained (startService w fuel name Run.init).2.calls)) ∧
    (((stopService w fuel name Run.init).1 ≠ Ending.polling →
        (closed (stopService w fuel name Run.init).2.calls).Perm
          (obtained (stopService w fuel name Run.init).2.calls)) ∧
      ((∃ n, n < fuel ∧ pollEndsAt w n) →
        (stopService w fuel name Run.init).1 ≠ Ending.polling)) ∧
    (((uninstallService w fuel name Run.init).1 ≠ Ending.polling →
        (closed (uninstallService w fuel name Run.init).2.calls).Perm
          (obtained (uninstallService w fuel name Run.init).2.calls)) ∧
      ((∃ n, n < fuel ∧ pollEndsAt w n) →
        (uninstallService w fuel name Run.init).1 ≠ Ending.polling)) := by
  have hperm : ([w.openService, w.openSCManager] : List Nat).Perm
      [w.openSCManager, w.openService] := List.Perm.swap _ _ _
  have hperm2 : ([w.createService, w.openSCManager] : List Nat).Perm
      [w.openSCManager, w.createService] := List.Perm.swap _ _ _
  refine ⟨?_, ?_, controlService_stop_handles w fuel name _ _ Action.STOP (Or.inl rfl),
    controlService_stop_handles w fuel name _ _ Action.UNINSTALL (Or.inr rfl)⟩
  · rw [installService_eq]
    by_cases hm : w.openSCManager = 0
    · simp [hm, closed, obtained]
    · by_cases hc : w.createService = 0
      · simp [hm, hc, closed, obtained]
      · by_cases hd : w.changeServiceConfig2 = false
        · simpa [hm, hc, hd, closed, obtained] using hperm2
        · simpa [hm, hc, hd, closed, obtained] using hperm2
  · unfold startService
    by_cases hm : w.openSCManager = 0
    · rw [controlService_no_manager w fuel name _ _ _ hm]
      simp [closed, obtained]
    · by_cases hs : w.openService = 0
      · rw [controlService_no_service w fuel name _ _ _ hm hs]
        simp [closed, obtained, hm]
      · rw [controlService_start w fuel name _ _ hm hs]
        by_cases hst : w.startService = false
        · simpa [hst, closed, obtained, hm, hs] using hperm
        · simpa [hst, closed, obtained, hm, hs] using hperm


theorem deleteIssued_nil : deleteIssued [] = false := rfl

theorem deleteIssued_cons (c : Call) (cs : List Call) :
    deleteIssued (c :: cs) =
      ((match c with
        | Call.DeleteService _ => true
        | _ => false) || deleteIssued cs) := rfl

/-- C10: looking at any number `fuel` of iterations of the poll loop and for
every outcome of the platform calls, `uninstallService` calls `DeleteService`
if and only if `OpenSCManager` and `OpenService` gave a handle, the stop signal
was accepted or rejected with the already-inactive error, and the poll loop
ended (within the iterations looked at) with Stopped as the state last stored;
when a step before the deletion fails, `uninstallService` throws that step's
exception and, by the equivalence, has not called `DeleteService`; when
`DeleteService` is called and rejected it throws "DeleteService failed", and
when it is called and accepted it returns. -/
theorem uninstallService_delete_iff (w : Scm) (fuel : Nat) (name : String) :
    (deleteIssued (uninstallService w fuel name Run.init).2.calls = true ↔
      (w.openSCManager ≠ 0 ∧ w.openService ≠ 0 ∧ stopAccepted w ∧
        ∃ n, n < fuel ∧ pollEndsAt w n ∧ lastObserved w n = SERVICE_STOPPED)) ∧
    (w.openSCManager = 0 →
      (uninstallService w fuel name Run.init).1 =
        Ending.raised (Thrown.exception "OpenSCManager failed")) ∧
    (w.openSCManager ≠ 0 → w.openService = 0 →
      (uninstallService w fuel name Run.init).1 =
        Ending.raised (Thrown.exception "OpenService failed")) ∧
    (w.openSCManager ≠ 0 → w.openService ≠ 0 → ¬ stopAccepted w →
      (uninstallService w fuel name Run.init).1 =
        Ending.raised (Thrown.exception "ControlService failed")) ∧
    (w.openSCManager ≠ 0 → w.openService ≠ 0 → stopAccepted w →
      (∃ n, n < fuel ∧ pollEndsAt w n ∧ lastObserved w n ≠ SERVICE_STOPPED) →
      (uninstallService w fuel name Run.init).1 =
        Ending.raised (Thrown.exception "Service state is not SERVICE_STOPPED")) ∧
    (deleteIssued (uninstallService w fuel name Run.init).2.calls = true →
      w.deleteService = false →
      (uninstallService w fuel name Run.init).1 =
        Ending.raised (Thrown.exception "DeleteService failed")) ∧
    (deleteIssued (uninstallService w fuel name Run.init).2.calls = true →
      w.deleteService = true →
      (uninstallService w fuel name Run.init).1 = Ending.returned ()) := by
  unfold uninstallService
  by_cases hm : w.openSCManager = 0
  · rw [controlService_no_manager w fuel name _ _ _ hm]
    simp [deleteIssued_cons, deleteIssued_nil, hm]
  by_cases hs : w.openService = 0
  · rw [controlService_no_service w fuel name _ _ _ hm hs]
    simp [deleteIssued_cons, deleteIssued_nil, hm, hs]
  obtain ⟨cs, k, hcs, hcase⟩ := serviceStop_cases w fuel w.openService
    { calls := [Call.OpenSCManager SC_MANAGER_CONNECT w.openSCManager,
        Call.OpenService w.openSCManager name (SERVICE_STOP ||| SERVICE_QUERY_STATUS ||| DELETE)
          w.openService]
      queries := 0, services_manager := w.openSCManager, service_handle := w.openService } rfl
  obtain ⟨_, _, hd3⟩ := poll_calls_inert _ cs hcs
  rcases hcase with ⟨hacc, heq⟩ | ⟨hacc, hall, heq⟩ | ⟨hacc, ⟨n, hn, hend, hlast⟩, heq⟩ |
    ⟨hacc, ⟨n, hn, hend, hlast⟩, heq⟩
  · rw [controlService_uninstall w fuel name _ _ hm hs _ _ _ heq]
    simp [deleteIssued_append, deleteIssued_cons, deleteIssued_nil, hd3, hm, hs, hacc]
  · have hno : ∀ n, n < fuel → ¬ pollEndsAt w n := fun n hn hend => hend.2 (hall n hn)
    rw [controlService_uninstall w fuel name _ _ hm hs _ _ _ heq]
    simp only [deleteIssued_append, deleteIssued_cons, deleteIssued_nil, hd3]
    refine ⟨?_, ?_, ?_, ?_, ?_, ?_, ?_⟩
    · constructor
      · intro h; simp at h
      · rintro ⟨_, _, _, n, hn, hend, _⟩; exact absurd hend (hno n hn)
    · intro h; exact absurd h hm
    · intro _ h; exact absurd h hs
    · intro _ _ h; exact absurd hacc h
    · rintro _ _ _ ⟨n, hn, hend, _⟩; exact absurd hend (hno n hn)
    · intro h; simp at h
    · intro h; simp at h
  · have hone : ∀ m, m < fuel → pollEndsAt w m → lastObserved w m = SERVICE_STOPPED := by
      intro m _ hm2
      rw [pollEndsAt_unique w m n hm2 hend]; exact hlast
    rw [controlService_uninstall w fuel name _ _ hm hs _ _ _ heq]
    by_cases hd : w.deleteService = false
    · simp only [if_pos hd, deleteIssued_append, deleteIssued_cons, deleteIssued_nil, hd3]
      refine ⟨?_, ?_, ?_, ?_, ?_, ?_, ?_⟩
      · exact ⟨fun _ => ⟨hm, hs, hacc, n, hn, hend, hlast⟩, fun _ => by simp⟩
      · intro h; exact absurd h hm
      · intro _ h; exact absurd h hs
      · intro _ _ h; exact absurd hacc h
      · rintro _ _ _ ⟨m, hm2, hend2, hne⟩; exact absurd (hone m hm2 hend2) hne
      · intro _ _; first | rfl | trivial
      · intro _ h; rw [hd] at h; cases h
    · have hd2 : w.deleteService = true := by simpa using hd
      simp only [if_neg hd, deleteIssued_append, deleteIssued_cons, deleteIssued_nil, hd3]
      refine ⟨?_, ?_, ?_, ?_, ?_, ?_, ?_⟩
      · exact ⟨fun _ => ⟨hm, hs, hacc, n, hn, hend, hlast⟩, fun _ => by simp⟩
      · intro h; exact absurd h hm
      · intro _ h; exact absurd h hs
      · intro _ _ h; exact absurd hacc h
      · rintro _ _ _ ⟨m, hm2, hend2, hne⟩; exact absurd (hone m hm2 hend2) hne
      · intro _ h; exact absurd h hd
      · intro _ _; first | rfl | trivial
  · have hone : ∀ m, m < fuel → pollEndsAt w m → lastObserved w m ≠ SERVICE_STOPPED := by
      intro m _ hm2
      rw [pollEndsAt_unique w m n hm2 hend]; exact hlast
    rw [controlService_uninstall w fuel name _ _ hm hs _ _ _ heq]
    simp only [deleteIssued_append, deleteIssued_cons, deleteIssued_nil, hd3]
    refine ⟨?_, ?_, ?_, ?_, ?_, ?_, ?_⟩
    · constructor
      · intro h; simp at h
      · rintro ⟨_, _, _, m, hm2, hend2, hl⟩; exact absurd hl (hone m hm2 hend2)
    · intro h; exact absurd h hm
    · intro _ h; exact absurd h hs
    · intro _ _ h; exact absurd hacc h
    · intro _ _ _ _; first | rfl | trivial
    · intro h; simp at h
    · intro h; simp at h

/-- Witness for `handles_closed_exactly_once`: uninstalling a running
service, looked at for two iterations of the poll loop. -/
theorem handles_closed_exactly_once_witness :
    (uninstallService runningService 2 "DemoSvc" Run.init).1 ≠ Ending.polling ∧
    (closed (uninstallService runningService 2 "DemoSvc" Run.init).2.calls).Perm
      (obtained (uninstallService runningService 2 "DemoSvc" Run.init).2.calls) :=
  ⟨(handles_closed_exactly_once runningService 2 "DemoSvc").2.2.2.2
      ⟨1, by decide, by unfold pollEndsAt; decide⟩,
    (handles_closed_exactly_once runningService 2 "DemoSvc").2.2.2.1 (by decide)⟩

/-- Witness for `uninstallService_delete_iff`: uninstalling a running service
stops it, deletes it and returns. -/
theorem uninstallService_delete_iff_witness :
    deleteIssued (uninstallService runningService 2 "DemoSvc" Run.init).2.calls = true ∧
    (uninstallService runningService 2 "DemoSvc" Run.init).1 = Ending.returned () :=
  ⟨(uninstallService_delete_iff runningService 2 "DemoSvc").1.2
      ⟨by decide, by decide, Or.inl rfl, 1, by decide, by unfold pollEndsAt; decide, rfl⟩,
    (uninstallService_delete_iff runningService 2 "DemoSvc").2.2.2.2.2.2
      ((uninstallService_delete_iff runningService 2 "DemoSvc").1.2
        ⟨by decide, by decide, Or.inl rfl, 1, by decide, by unfold pollEndsAt; decide, rfl⟩)
      rfl⟩

/-! ## The service manager: stopping a service that is already stopped -/

/-- C11: for an installed service that is already stopped (both opens succeed,
`ControlService` is rejected with `ERROR_SERVICE_NOT_ACTIVE`, every status query
reports Stopped), `stopService` returns without throwing; it makes one status
query and no `Sleep` call, and closes both handles. -/
theorem stopService_already_stopped (w : Scm) (fuel : Nat) (name : String)
    (hm : w.openSCManager ≠ 0) (hs : w.openService ≠ 0) (hc : w.controlService = false)
    (he : w.controlLastError = ERROR_SERVICE_NOT_ACTIVE)
    (hq : ∀ k, w.queryServiceStatus k = some SERVICE_STOPPED) :
    (stopService w (fuel + 1) name Run.init).1 = Ending.returned () ∧
    (∀ milliseconds, Call.Sleep milliseconds ∉ (stopService w (fuel + 1) name Run.init).2.calls) ∧
    (stopService w (fuel + 1) name Run.init).2.calls =
      [Call.OpenSCManager SC_MANAGER_CONNECT w.openSCManager,
        Call.OpenService w.openSCManager name (SERVICE_STOP ||| SERVICE_QUERY_STATUS)
          w.openService,
        Call.ControlService w.openService SERVICE_CONTROL_STOP,
        Call.QueryServiceStatus w.openService,
        Call.CloseServiceHandle w.openService,
        Call.CloseServiceHandle w.openSCManager] := by
  have heq : serviceStop w (fuel + 1) w.openService
      { calls := [Call.OpenSCManager SC_MANAGER_CONNECT w.openSCManager,
          Call.OpenService w.openSCManager name (SERVICE_STOP ||| SERVICE_QUERY_STATUS)
            w.openService]
        queries := 0, services_manager := w.openSCManager, service_handle := w.openService } =
      (Ending.returned (),
        { calls := [Call.OpenSCManager SC_MANAGER_CONNECT w.openSCManager,
            Call.OpenService w.openSCManager name (SERVICE_STOP ||| SERVICE_QUERY_STATUS)
              w.openService,
            Call.ControlService w.openService SERVICE_CONTROL_STOP,
            Call.QueryServiceStatus w.openService]
          queries := 1, services_manager := w.openSCManager,
          service_handle := w.openService }) := by
    rw [serviceStop_eq, pollLoop_succ]
    simp [hc, he, hq]
  unfold stopService
  rw [controlService_stop w (fuel + 1) name _ _ hm hs _ _ _ heq]
  simp

/-- Witness for `stopService_already_stopped`: the already-stopped script. -/
theorem stopService_already_stopped_witness :
    (stopService stoppedService 1 "DemoSvc" Run.init).1 = Ending.returned () ∧
    (∀ milliseconds,
      Call.Sleep milliseconds ∉ (stopService stoppedService 1 "DemoSvc" Run.init).2.calls) :=
  ⟨(stopService_already_stopped stoppedService 0 "DemoSvc" (by decide) (by decide) rfl rfl
      (fun _ => rfl)).1,
    (stopService_already_stopped stoppedService 0 "DemoSvc" (by decide) (by decide) rfl rfl
      (fun _ => rfl)).2.1⟩

/-! ## The launch entry point -/

/-- C12: when `StartServiceCtrlDispatcher` returns 0 with last error `e`,
`run` throws `ServiceExecutionTypeException` if and only if `e` is
`ERROR_FAILED_SERVICE_CONTROLLER_CONNECT`, and otherwise throws a
`WinApiLastErrorException` whose `lastErrorCode` is `e`; when the dispatcher
returns non-zero, `run` returns without throwing. -/
theorem run_throws (service : BaseService) (served : List Delivery) (e result : Nat) :
    ((∃ x, (BaseService.run { result := 0, lastError := e, served := served } service).1 =
        Except.error (RunThrown.serviceExecutionType x)) ↔
      e = ERROR_FAILED_SERVICE_CONTROLLER_CONNECT) ∧
    (e ≠ ERROR_FAILED_SERVICE_CONTROLLER_CONNECT →
      ∃ x, (BaseService.run { result := 0, lastError := e, served := served } service).1 =
          Except.error (RunThrown.winApiLastError x) ∧
        x.lastErrorCode = e ∧ x.what = "Run service StartServiceCtrlDispatcher failed") ∧
    (result ≠ 0 →
      (BaseService.run { result := result, lastError := e, served := served } service).1 =
        Except.ok ()) := by
  refine ⟨?_, ?_, ?_⟩
  · by_cases h : e = ERROR_FAILED_SERVICE_CONTROLLER_CONNECT
    · simp [BaseService.run, h]
    · simp [BaseService.run, h]
  · intro h
    exact ⟨WinApiLastErrorException.new "Run service StartServiceCtrlDispatcher failed" e,
      by simp [BaseService.run, h], rfl, rfl⟩
  · intro h
    simp [BaseService.run, h]

/-- Witness for `run_throws`: the dispatcher fails with error 5 (access
denied), and the dispatcher returns 1. -/
theorem run_throws_witness :
    (∃ x, (BaseService.run { result := 0, lastError := 5, served := [] }
          (BaseService.new "svc" true true false 1)).1 =
        Except.error (RunThrown.winApiLastError x) ∧
      x.lastErrorCode = 5 ∧ x.what = "Run service StartServiceCtrlDispatcher failed") ∧
    (BaseService.run { result := 1, lastError := 5, served := [] }
        (BaseService.new "svc" true true false 1)).1 = Except.ok () :=
  ⟨(run_throws (BaseService.new "svc" true true false 1) [] 5 1).2.1 (by decide),
    (run_throws (BaseService.new "svc" true true false 1) [] 5 1).2.2 (by decide)⟩

/-! ## The lifecycle host: the values of `dwCurrentState` -/

theorem reportedStates_of_trace (s s1 : BaseService) (steps : List Step)
    (h : trace s1 = trace s ++ steps) :
    reportedStates s1 = reportedStates s ++
      steps.filterMap (fun step =>
        match step with
        | Step.reported state => some state
        | Step.invoked _ => none) := by
  unfold reportedStates
  rw [h, List.filterMap_append]

theorem trace_main (registered : Nat) (o : HookOutcome) (s : BaseService) :
    trace (main registered o s).2 = trace s ++
      (if registered = 0 then []
        else Step.reported SERVICE_START_PENDING :: Step.reported SERVICE_RUNNING ::
          Step.invoked Hook.onStart ::
          match o with
          | HookOutcome.returns => []
          | HookOutcome.throws _ => [Step.reported SERVICE_STOPPED]) := by
  by_cases h : registered = 0
  · subst h
    simp only [if_true, List.append_nil]
    rfl
  · rw [main_registered registered o s h, trace_start, if_neg h]
    rfl

/-- A delivery to a host that is between transitions stores only lifecycle
states in `dwCurrentState`. -/
theorem deliver_reported (d : Delivery) (s : BaseService)
    (hs : s._status.dwCurrentState = SERVICE_START_PENDING ∨
      s._status.dwCurrentState = SERVICE_RUNNING ∨
      s._status.dwCurrentState = SERVICE_PAUSED ∨
      s._status.dwCurrentState = SERVICE_STOPPED)
    (hr : ∀ state ∈ reportedStates s, state ∈ lifecycleStates) :
    ∀ state ∈ reportedStates (deliver d s).2, state ∈ lifecycleStates := by
  have hmem : s._status.dwCurrentState ∈ lifecycleStates := by
    rcases hs with h | h | h | h <;> rw [h] <;> decide
  cases d with
  | launch registered o =>
      simp only [deliver]
      rw [reportedStates_of_trace _ _ _ (trace_main registered o s)]
      intro state hst
      rw [List.mem_append] at hst
      rcases hst with hst | hst
      · exact hr state hst
      · by_cases h0 : registered = 0
        · simp [h0] at hst
        · cases o with
          | returns => simp [h0] at hst; rcases hst with h | h <;> rw [h] <;> decide
          | throws t => simp [h0] at hst; rcases hst with h | h | h <;> rw [h] <;> decide
  | control code o =>
      simp only [deliver]
      unfold handleControl
      split_ifs
      · rw [reportedStates_of_trace _ _ _ (trace_stop o s)]
        intro state hst
        rw [List.mem_append] at hst
        rcases hst with hst | hst
        · exact hr state hst
        · cases o <;> simp at hst <;> rcases hst with h | h <;> rw [h]
          · decide
          · decide
          · decide
          · exact hmem
      · rw [reportedStates_of_trace _ _ _ (trace_pause o s)]
        intro state hst
        rw [List.mem_append] at hst
        rcases hst with hst | hst
        · exact hr state hst
        · cases o <;> simp at hst <;> rcases hst with h | h <;> rw [h] <;> decide
      · rw [reportedStates_of_trace _ _ _ (trace_resume o s)]
        intro state hst
        rw [List.mem_append] at hst
        rcases hst with hst | hst
        · exact hr state hst
        · cases o <;> simp at hst <;> rcases hst with h | h <;> rw [h] <;> decide
      · rw [reportedStates_of_trace _ _ _ (trace_shutdown o s)]
        intro state hst
        rw [List.mem_append] at hst
        rcases hst with hst | hst
        · exact hr state hst
        · cases o <;> simp at hst
          rw [hst]; decide
      · simpa [Exec.exec_pure, Exec.ret] using hr

theorem deliveries_reported (ds : List Delivery) (s : BaseService)
    (hs : s._status.dwCurrentState = SERVICE_START_PENDING ∨
      s._status.dwCurrentState = SERVICE_RUNNING ∨
      s._status.dwCurrentState = SERVICE_PAUSED ∨
      s._status.dwCurrentState = SERVICE_STOPPED)
    (hr : ∀ state ∈ reportedStates s, state ∈ lifecycleStates) :
    ∀ state ∈ reportedStates (deliveries ds s), state ∈ lifecycleStates := by
  induction ds generalizing s with
  | nil => exact hr
  | cons d ds ih => exact ih _ (deliver_settled d s hs) (deliver_reported d s hs hr)

/-- C13: a freshly constructed host has `dwCurrentState` = StartPending; after
any finite sequence of launches and control codes (Stop, Pause, Continue,
Shutdown or any other code) with any hook outcomes, `dwCurrentState` is one of
the seven lifecycle states, and so is every value that was stored in it on the
way; a control code other than the four recognised ones leaves the whole status
record unchanged. -/
theorem currentState_in_lifecycle (name : String) (canStop canShutdown canPauseContinue : Bool)
    (checkPoint : Nat) (ds : List Delivery) (control : Nat) (o : HookOutcome) :
    (BaseService.new name canStop canShutdown canPauseContinue checkPoint)._status.dwCurrentState =
      SERVICE_START_PENDING ∧
    (deliveries ds (BaseService.new name canStop canShutdown canPauseContinue checkPoint)
      )._status.dwCurrentState ∈ lifecycleStates ∧
    (∀ state ∈
        reportedStates (deliveries ds (BaseService.new name canStop canShutdown canPauseContinue checkPoint)),
      state ∈ lifecycleStates) ∧
    (control ≠ SERVICE_CONTROL_STOP → control ≠ SERVICE_CONTROL_PAUSE →
      control ≠ SERVICE_CONTROL_CONTINUE → control ≠ SERVICE_CONTROL_SHUTDOWN →
      (handleControl control o
          (deliveries ds (BaseService.new name canStop canShutdown canPauseContinue checkPoint))).2._status =
        (deliveries ds (BaseService.new name canStop canShutdown canPauseContinue checkPoint))._status) := by
  refine ⟨rfl, ?_, ?_, ?_⟩
  · rcases deliveries_settled ds (BaseService.new name canStop canShutdown canPauseContinue checkPoint)
      (Or.inl rfl) with h | h | h | h <;> rw [h] <;> decide
  · apply deliveries_reported ds _ (Or.inl rfl)
    intro state hst
    simp [reportedStates, trace, BaseService.new] at hst
  · intro h1 h2 h3 h4
    rw [handleControl_unrecognized control o _ h1 h2 h3 h4]

/-- Witness for `currentState_in_lifecycle`: control code 4 (interrogate)
after a launch and a failed stop. -/
theorem currentState_in_lifecycle_witness :
    (handleControl 4 HookOutcome.returns
        (deliveries [Delivery.launch 1 HookOutcome.returns,
            Delivery.control SERVICE_CONTROL_STOP (HookOutcome.throws Thrown.other)]
          (BaseService.new "svc" true true false 1))).2._status =
      (deliveries [Delivery.launch 1 HookOutcome.returns,
          Delivery.control SERVICE_CONTROL_STOP (HookOutcome.throws Thrown.other)]
        (BaseService.new "svc" true true false 1))._status :=
  (currentState_in_lifecycle "svc" true true false 1
    [Delivery.launch 1 HookOutcome.returns,
      Delivery.control SERVICE_CONTROL_STOP (HookOutcome.throws Thrown.other)]
    4 HookOutcome.returns).2.2.2 (by decide) (by decide) (by decide) (by decide)

/-! ## The lifecycle host: accepted controls and service type -/

theorem new_controlsAccepted (name : String) (canStop canShutdown canPauseContinue : Bool)
    (checkPoint : Nat) :
    (BaseService.new name canStop canShutdown canPauseContinue checkPoint)._status.dwControlsAccepted =
      (if canStop then SERVICE_ACCEPT_STOP else 0) +
        (if canShutdown then SERVICE_ACCEPT_SHUTDOWN else 0) +
        (if canPauseContinue then SERVICE_ACCEPT_PAUSE_CONTINUE else 0) := by
  cases canStop <;> cases canShutdown <;> cases canPauseContinue <;> rfl

theorem transition_frame (o : HookOutcome) (s : BaseService) :
    ((start o s).2._status.dwControlsAccepted = s._status.dwControlsAccepted ∧
      (start o s).2._status.dwServiceType = s._status.dwServiceType) ∧
    ((stop o s).2._status.dwControlsAccepted = s._status.dwControlsAccepted ∧
      (stop o s).2._status.dwServiceType = s._status.dwServiceType) ∧
    ((pause o s).2._status.dwControlsAccepted = s._status.dwControlsAccepted ∧
      (pause o s).2._status.dwServiceType = s._status.dwServiceType) ∧
    ((resume o s).2._status.dwControlsAccepted = s._status.dwControlsAccepted ∧
      (resume o s).2._status.dwServiceType = s._status.dwServiceType) ∧
    ((shutdown o s).2._status.dwControlsAccepted = s._status.dwControlsAccepted ∧
      (shutdown o s).2._status.dwServiceType = s._status.dwServiceType) := by
  cases o with
  | returns => exact ⟨⟨rfl, rfl⟩, ⟨rfl, rfl⟩, ⟨rfl, rfl⟩, ⟨rfl, rfl⟩, ⟨rfl, rfl⟩⟩
  | throws t => cases t <;> exact ⟨⟨rfl, rfl⟩, ⟨rfl, rfl⟩, ⟨rfl, rfl⟩, ⟨rfl, rfl⟩, ⟨rfl, rfl⟩⟩

/-- C14: for every triple of constructor flags, `dwControlsAccepted` after
construction has the Stop bit iff `canStop`, the Shutdown bit iff `canShutdown`
and the PauseContinue bit iff `canPauseContinue`, so that two hosts with the
same `dwControlsAccepted` were built from the same flags; the service type is
`SERVICE_WIN32_OWN_PROCESS`; and `setStatus` and the transitions `start`,
`stop`, `pause`, `resume` and `shutdown` leave `dwControlsAccepted` and
`dwServiceType` as they were, whatever the hook does. -/
theorem controlsAccepted_fixed (name other : String)
    (canStop canShutdown canPauseContinue canStop2 canShutdown2 canPauseContinue2 : Bool)
    (checkPoint checkPoint2 : Nat) (s : BaseService) (o : HookOutcome) (currentState exitCode waitHint : Nat) :
    (accepts (BaseService.new name canStop canShutdown canPauseContinue checkPoint)._status
        SERVICE_ACCEPT_STOP = canStop ∧
      accepts (BaseService.new name canStop canShutdown canPauseContinue checkPoint)._status
        SERVICE_ACCEPT_SHUTDOWN = canShutdown ∧
      accepts (BaseService.new name canStop canShutdown canPauseContinue checkPoint)._status
        SERVICE_ACCEPT_PAUSE_CONTINUE = canPauseContinue) ∧
    ((BaseService.new name canStop canShutdown canPauseContinue checkPoint)._status.dwControlsAccepted =
        (BaseService.new other canStop2 canShutdown2 canPauseContinue2 checkPoint2
          )._status.dwControlsAccepted →
      canStop = canStop2 ∧ canShutdown = canShutdown2 ∧
        canPauseContinue = canPauseContinue2) ∧
    (BaseService.new name canStop canShutdown canPauseContinue checkPoint)._status.dwServiceType =
      SERVICE_WIN32_OWN_PROCESS ∧
    ((setStatus currentState exitCode waitHint s).2._status.dwControlsAccepted =
        s._status.dwControlsAccepted ∧
      (setStatus currentState exitCode waitHint s).2._status.dwServiceType =
        s._status.dwServiceType) ∧
    ((start o s).2._status.dwControlsAccepted = s._status.dwControlsAccepted ∧
      (start o s).2._status.dwServiceType = s._status.dwServiceType) ∧
    ((stop o s).2._status.dwControlsAccepted = s._status.dwControlsAccepted ∧
      (stop o s).2._status.dwServiceType = s._status.dwServiceType) ∧
    ((pause o s).2._status.dwControlsAccepted = s._status.dwControlsAccepted ∧
      (pause o s).2._status.dwServiceType = s._status.dwServiceType) ∧
    ((resume o s).2._status.dwControlsAccepted = s._status.dwControlsAccepted ∧
      (resume o s).2._status.dwServiceType = s._status.dwServiceType) ∧
    ((shutdown o s).2._status.dwControlsAccepted = s._status.dwControlsAccepted ∧
      (shutdown o s).2._status.dwServiceType = s._status.dwServiceType) := by
  refine ⟨?_, ?_, rfl, ⟨rfl, rfl⟩, transition_frame o s⟩
  · simp only [accepts, new_controlsAccepted]
    cases canStop <;> cases canShutdown <;> cases canPauseContinue <;> decide
  · rw [new_controlsAccepted, new_controlsAccepted]
    cases canStop <;> cases canShutdown <;> cases canPauseContinue <;>
      cases canStop2 <;> cases canShutdown2 <;> cases canPauseContinue2 <;> decide

/-- Witness for `controlsAccepted_fixed`: the default flags against themselves
under another name. -/
theorem controlsAccepted_fixed_witness :
    (true = true ∧ true = true ∧ false = false) ∧
    accepts (BaseService.new "svc" true true false 1)._status SERVICE_ACCEPT_STOP = true :=
  ⟨(controlsAccepted_fixed "svc" "other" true true false true true false 1 2
      (BaseService.new "svc" true true false 1) HookOutcome.returns 0 0 0).2.1 rfl,
    (controlsAccepted_fixed "svc" "other" true true false true true false 1 2
      (BaseService.new "svc" true true false 1) HookOutcome.returns 0 0 0).1.1⟩

end WinServiceLib
